import Mathlib

/-!
# Verification of the Arb-Move bot-rs core against its specification

Shallow embedding of the `bot-rs` crates (types, strategy, collector,
executor).  Conventions:

* Rust `u32`/`u64`/`u128` are modelled as `Nat`, with an explicit
  `% 2^w` at the places where the Rust code can actually wrap
  (left shifts on `u128`, `as u64` narrowing); `checked_mul` is
  modelled as an `Option`-returning multiplication against `2^128`.
* Rust `i32`/`i64` are modelled as `Int`; two's-complement
  reinterpretations carry an explicit `% 2^32` / `2^64` conversion.
* Rust `f64` is modelled as `ℚ` (exact rational arithmetic); float
  literals such as `0.5`, `0.001`, `0.15` become the exact rationals
  they denote, and `as u64` casts of floats become a saturating
  floor (Rust float-to-int casts saturate).
* `SystemTime::now()` is an I/O boundary: functions that read the
  clock take `now` as an explicit parameter.
* Strings keep Rust's `String` semantics on Lean `String`.
-/

/-- `u64::MAX + 1`. -/
def U64MOD : Nat := 2 ^ 64

/-- `u128::MAX + 1`. -/
def U128MOD : Nat := 2 ^ 128

/-- `u128::checked_mul`: `some (a*b)` unless the product overflows 128 bits. -/
def checkedMul128 (a b : Nat) : Option Nat :=
  if a * b < U128MOD then some (a * b) else none

/-- Rust `x as u64` applied to a nonnegative-float model value: the cast
truncates toward zero and saturates at the `u64` range ends. -/
def f64ToU64 (q : ℚ) : Nat :=
  if q ≤ 0 then 0 else min (Rat.floor q).toNat (U64MOD - 1)

/-- Rust `x as i64` applied to a `u64` value (two's-complement reinterpretation). -/
def i64OfU64 (n : Nat) : Int :=
  if n < 2 ^ 63 then (n : Int) else (n : Int) - (U64MOD : Int)

/-- Rust `(bits as u32) as i32`: truncate to 32 bits, then reinterpret as a
two's-complement signed 32-bit integer. -/
def castU32I32 (n : Nat) : Int :=
  if n % 2 ^ 32 < 2 ^ 31 then ((n % 2 ^ 32 : Nat) : Int)
  else ((n % 2 ^ 32 : Nat) : Int) - 2 ^ 32

/-- Rust `v as i32` on an `i64` value: truncate to the low 32 bits
(two's complement). -/
def castI64I32 (v : Int) : Int :=
  castU32I32 (v % 2 ^ 32).toNat

/-- Two's-complement i32 reading of a `u32` bit pattern — the reference
meaning of the on-chain `{ bits : u32 }` tick encoding used by the spec. -/
def twosComplementI32 (bits : Nat) : Int :=
  if bits < 2 ^ 31 then (bits : Int) else (bits : Int) - 2 ^ 32

/-! ## `types/src/pool.rs` -/

/-- Which DEX a pool belongs to (`Dex` in `types/src/pool.rs`). -/
inductive Dex where
  | Cetus
  | Turbos
  | DeepBook
  | Aftermath
  | FlowxClmm
  | FlowxAmm
deriving DecidableEq, Repr

/-- Normalized pool state (`PoolState` in `types/src/pool.rs`).
`f64` fields (`best_bid`, `best_ask`) are modelled as `ℚ`. -/
structure PoolState where
  object_id : String
  dex : Dex
  coin_type_a : String
  coin_type_b : String
  sqrt_price : Option Nat
  tick_index : Option Int
  liquidity : Option Nat
  fee_rate_bps : Option Nat
  reserve_a : Option Nat
  reserve_b : Option Nat
  best_bid : Option ℚ
  best_ask : Option ℚ
  last_updated_ms : Nat
  fee_type : Option String
deriving DecidableEq, Repr

/-- `PoolState::MIN_CLMM_LIQUIDITY`. -/
def MIN_CLMM_LIQUIDITY : Nat := 10000000

/-- `PoolState::price_a_in_b`: effective price of A in terms of B. -/
def PoolState.price_a_in_b (p : PoolState) : Option ℚ :=
  match p.dex with
  | .Cetus | .Turbos | .FlowxClmm =>
    let liq := p.liquidity.getD 0
    if liq < MIN_CLMM_LIQUIDITY then none
    else
      p.sqrt_price.map fun sp =>
        let spf : ℚ := (sp : ℚ) / ((2 ^ 64 : Nat) : ℚ)
        spf * spf
  | .Aftermath | .FlowxAmm =>
    match p.reserve_a, p.reserve_b with
    | some a, some b => if 0 < a then some ((b : ℚ) / (a : ℚ)) else none
    | _, _ => none
  | .DeepBook =>
    match p.best_bid, p.best_ask with
    | some bid, some ask => some ((bid + ask) / 2)
    | some bid, none => some bid
    | none, some ask => some ask
    | none, none => none

/-- `PoolState::supports_flash_swap`. -/
def PoolState.supports_flash_swap (p : PoolState) : Bool :=
  match p.dex with
  | .Cetus | .Turbos | .DeepBook | .FlowxClmm => true
  | _ => false

/-- `PoolState::staleness_ms` (`saturating_sub` is `Nat` subtraction). -/
def PoolState.staleness_ms (p : PoolState) (now_ms : Nat) : Nat :=
  now_ms - p.last_updated_ms

/-! ## `types/src/decimals.rs` -/

/-- Scan a reversed character list and return everything before the first
`"::"` separator: applied to `cs.reverse`, this yields (reversed) the suffix
of `cs` after the last occurrence of `"::"` — the model of
`coin_type.rsplit("::").next()`. -/
def afterLastSepRev : List Char → List Char
  | [] => []
  | ':' :: ':' :: _ => []
  | c :: rest => c :: afterLastSepRev rest

/-- Model of Rust `s.rsplit("::").next().unwrap_or(s)`: the segment after
the last `"::"` (the whole string when no separator occurs). -/
def lastSegment (s : String) : String :=
  String.mk ((afterLastSepRev s.data.reverse).reverse)

/-- Model of Rust `str::to_uppercase` on ASCII identifiers. -/
def toUpperStr (s : String) : String :=
  String.mk (s.data.map Char.toUpper)

/-- Whether `pre` occurs at the start of `s` (character lists). -/
def charsStartWith : List Char → List Char → Bool
  | _, [] => true
  | [], _ :: _ => false
  | c :: cs, p :: ps => c = p && charsStartWith cs ps

/-- Whether `pat` occurs as a contiguous run somewhere inside `s`. -/
def charsContain : List Char → List Char → Bool
  | [], pat => pat.isEmpty
  | c :: cs, pat => charsStartWith (c :: cs) pat || charsContain cs pat

/-- Model of Rust `str::contains(pat)` (substring occurrence). -/
def containsSubstr (s pat : String) : Bool :=
  charsContain s.data pat.data

/-- `decimals_for_coin_type` in `types/src/decimals.rs`. -/
def decimals_for_coin_type (coin_type : String) : Nat :=
  let token_name := toUpperStr (lastSegment coin_type)
  if token_name = "SUI" then 9
  else if token_name = "USDC" then 6
  else if token_name = "USDT" then 6
  else if token_name = "DEEP" then 6
  else if token_name = "COIN" then
    if containsSubstr coin_type "af8cd5edc19c4512" then 8
    else if containsSubstr coin_type "c060006111016b8a" then 6
    else 9
  else if token_name = "WETH" ∨ token_name = "ETH" then 8
  else if token_name = "WBTC" ∨ token_name = "BTC" then 8
  else if token_name = "CETUS" then 9
  else if token_name = "SCA" then 9
  else if token_name = "TURBOS" then 9
  else if token_name = "NAVX" then 9
  else if token_name = "HASUI" ∨ token_name = "AFSUI" ∨ token_name = "VSUI" then 9
  else 9

/-- Exact model of `10f64.powi diff`. -/
def pow10Z (d : Int) : ℚ :=
  if 0 ≤ d then ((10 : ℚ) ^ d.toNat) else 1 / ((10 : ℚ) ^ (-d).toNat)

/-- `decimal_adjustment_factor` in `types/src/decimals.rs`. -/
def decimal_adjustment_factor (coin_type_a coin_type_b : String) : ℚ :=
  pow10Z ((decimals_for_coin_type coin_type_a : Int) -
          (decimals_for_coin_type coin_type_b : Int))

/-- `normalize_price` in `types/src/decimals.rs`. -/
def normalize_price (raw : ℚ) (coin_type_a coin_type_b : String) : ℚ :=
  raw * decimal_adjustment_factor coin_type_a coin_type_b

/-! ## `strategy/src/circuit_breaker.rs` -/

/-- `CircuitBreaker` (config plus mutable state).  `u32`/`u64` counters are
`Nat`, the `i64` PnL is `Int`. -/
structure CircuitBreaker where
  max_consecutive_failures : Nat
  max_cumulative_loss_mist : Int
  cooldown_ms : Nat
  consecutive_failures : Nat
  cumulative_pnl_mist : Int
  total_trades : Nat
  tripped_at_ms : Option Nat
  trip_reason : Option String
deriving DecidableEq, Repr

/-- `CircuitBreaker::new`. -/
def CircuitBreaker.new (maxConsecutive : Nat) (maxLoss : Int) (cooldown : Nat) :
    CircuitBreaker :=
  { max_consecutive_failures := maxConsecutive
    max_cumulative_loss_mist := maxLoss
    cooldown_ms := cooldown
    consecutive_failures := 0
    cumulative_pnl_mist := 0
    total_trades := 0
    tripped_at_ms := none
    trip_reason := none }

/-- `CircuitBreaker::default_config`. -/
def CircuitBreaker.default_config : CircuitBreaker :=
  CircuitBreaker.new 5 1000000000 60000

/-- `CircuitBreaker::trip` (private helper). -/
def CircuitBreaker.trip (cb : CircuitBreaker) (now_ms : Nat) (reason : String) :
    CircuitBreaker :=
  { cb with tripped_at_ms := some now_ms, trip_reason := some reason }

/-- `CircuitBreaker::reset`. -/
def CircuitBreaker.reset (cb : CircuitBreaker) : CircuitBreaker :=
  { cb with consecutive_failures := 0, tripped_at_ms := none, trip_reason := none }

/-- `CircuitBreaker::is_trading_allowed` — returns the answer together with
the updated state (`&mut self` made explicit). -/
def CircuitBreaker.is_trading_allowed (cb : CircuitBreaker) (now_ms : Nat) :
    Bool × CircuitBreaker :=
  match cb.tripped_at_ms with
  | some tripped_at =>
    let elapsed := now_ms - tripped_at
    if cb.cooldown_ms ≤ elapsed then (true, cb.reset) else (false, cb)
  | none => (true, cb)

/-- `CircuitBreaker::record_success`. -/
def CircuitBreaker.record_success (cb : CircuitBreaker) (profit_mist : Int) :
    CircuitBreaker :=
  { cb with
    total_trades := cb.total_trades + 1
    consecutive_failures := 0
    cumulative_pnl_mist := cb.cumulative_pnl_mist + profit_mist }

/-- `CircuitBreaker::record_failure` — returns whether this trade tripped the
breaker, together with the updated state. -/
def CircuitBreaker.record_failure (cb : CircuitBreaker) (loss_mist : Int)
    (now_ms : Nat) : Bool × CircuitBreaker :=
  let cb1 := { cb with
    total_trades := cb.total_trades + 1
    consecutive_failures := cb.consecutive_failures + 1
    cumulative_pnl_mist := cb.cumulative_pnl_mist + loss_mist }
  if cb1.max_consecutive_failures ≤ cb1.consecutive_failures then
    (true, cb1.trip now_ms
      (toString cb1.consecutive_failures ++ " consecutive failures (limit: " ++
       toString cb1.max_consecutive_failures ++ ")"))
  else if cb1.cumulative_pnl_mist ≤ -cb1.max_cumulative_loss_mist then
    (true, cb1.trip now_ms
      ("Cumulative loss " ++ toString cb1.cumulative_pnl_mist.natAbs ++
       " MIST exceeds limit " ++ toString cb1.max_cumulative_loss_mist ++ " MIST"))
  else (false, cb1)

/-! ## `strategy/src/optimizer.rs` -/

/-- The tail of `ternary_search` after the loop: probe the interior midpoint
and return the best `(amount, profit)` seen. -/
def tsFinal (f : Nat → Nat) (lo hi bestA bestP : Nat) : Nat × Nat :=
  let mid := lo + (hi - lo) / 2
  let pm := f mid
  if bestP < pm then (mid, pm) else (bestA, bestP)

/-- The `while` loop of `ternary_search`; `fuel` counts the remaining
iterations out of the source's `max_iterations = 100` safety bound. -/
def tsLoop (f : Nat → Nat) (precision : Nat) :
    Nat → Nat → Nat → Nat → Nat → Nat × Nat
  | 0, lo, hi, bestA, bestP => tsFinal f lo hi bestA bestP
  | fuel + 1, lo, hi, bestA, bestP =>
    if precision < hi - lo then
      let third := (hi - lo) / 3
      let m1 := lo + third
      let m2 := hi - third
      let p1 := f m1
      let p2 := f m2
      let bA1 := if bestP < p1 then m1 else bestA
      let bP1 := if bestP < p1 then p1 else bestP
      let bA2 := if bP1 < p2 then m2 else bA1
      let bP2 := if bP1 < p2 then p2 else bP1
      if p1 < p2 then tsLoop f precision fuel m1 hi bA2 bP2
      else tsLoop f precision fuel lo m2 bA2 bP2
    else tsFinal f lo hi bestA bestP

/-- `ternary_search` in `strategy/src/optimizer.rs`. -/
def ternary_search (lo hi precision : Nat) (f : Nat → Nat) : Nat × Nat :=
  if hi ≤ lo then (lo, f lo) else tsLoop f precision 100 lo hi lo 0

/-- The points at which `tsLoop` invokes `simulate`, in probing order
(instrumentation used to state the optimum property; the interval evolution
does not depend on the running best, so this list is well defined). -/
def tsProbes (f : Nat → Nat) (precision : Nat) : Nat → Nat → Nat → List Nat
  | 0, lo, hi => [lo + (hi - lo) / 2]
  | fuel + 1, lo, hi =>
    if precision < hi - lo then
      let third := (hi - lo) / 3
      let m1 := lo + third
      let m2 := hi - third
      if f m1 < f m2 then m1 :: m2 :: tsProbes f precision fuel m1 hi
      else m1 :: m2 :: tsProbes f precision fuel lo m2
    else [lo + (hi - lo) / 2]

/-- All points at which `ternary_search` invokes `simulate`. -/
def ternaryProbes (lo hi precision : Nat) (f : Nat → Nat) : List Nat :=
  if hi ≤ lo then [lo] else tsProbes f precision 100 lo hi

/-- The concave test function of the claim: `f x = 2500 − (x − 50)²`
(with saturating `u64` subtraction, as in the source's test). -/
def fConcave (x : Nat) : Nat :=
  let diff := if 50 < x then x - 50 else 50 - x
  2500 - diff * diff

/-- A probe-dodging function: positive only at `0`, which the search never
probes on `[0, 10]` with precision `20`. -/
def fSpike (x : Nat) : Nat :=
  if x = 0 then 5 else 0

/-- `simulate_xy_arb` in `strategy/src/optimizer.rs` (constant-product
round trip; `u64` multiplications wrap, the quotients live in `u128`). -/
def simulate_xy_arb (reserve_a1 reserve_b1 reserve_a2 reserve_b2
    fee_bps_1 fee_bps_2 amount_b_in : Nat) : Nat :=
  let fee_1 := amount_b_in * fee_bps_1 % U64MOD / 10000
  let b_after_fee := amount_b_in - fee_1
  if b_after_fee = 0 ∨ reserve_a1 = 0 ∨ reserve_b1 = 0 then 0
  else
    let a_out := reserve_a1 * b_after_fee / (reserve_b1 + b_after_fee)
    if a_out = 0 ∨ reserve_a1 ≤ a_out then 0
    else
      let fee_2 := a_out * fee_bps_2 % U64MOD / 10000
      let a_after_fee := a_out - fee_2
      if a_after_fee = 0 ∨ reserve_a2 = 0 ∨ reserve_b2 = 0 then 0
      else
        let b_out := reserve_b2 * a_after_fee / (reserve_a2 + a_after_fee)
        if b_out = 0 then 0
        else b_out - amount_b_in

/-- `after_fee_1` in `simulate_clmm_arb`: input net of the leg-1 fee. -/
def clmmAfterFee1 (fee_bps_1 amount_in : Nat) : Nat :=
  amount_in - amount_in * fee_bps_1 / 10000

/-- `delta_sqrt_1` in `simulate_clmm_arb`: `after_fee_1 << 64 / L1`
(`after_fee_1 < 2^64`, so the shift cannot wrap). -/
def clmmDeltaSqrt1 (liquidity_1 fee_bps_1 amount_in : Nat) : Nat :=
  clmmAfterFee1 fee_bps_1 amount_in * 2 ^ 64 / liquidity_1

/-- `new_sqrt_1` in `simulate_clmm_arb` (saturating). -/
def clmmNewSqrt1 (sqrt_price_1 liquidity_1 fee_bps_1 amount_in : Nat) : Nat :=
  sqrt_price_1 - clmmDeltaSqrt1 liquidity_1 fee_bps_1 amount_in

/-- `amount_b_mid` in `simulate_clmm_arb` (checked multiply, `0` on
overflow). -/
def clmmAmountBMid (sqrt_price_1 liquidity_1 fee_bps_1 amount_in : Nat) : Nat :=
  ((checkedMul128 liquidity_1
      (sqrt_price_1 - clmmNewSqrt1 sqrt_price_1 liquidity_1 fee_bps_1 amount_in)).map
    (· / 2 ^ 64)).getD 0

/-- `after_fee_2` in `simulate_clmm_arb`. -/
def clmmAfterFee2 (sqrt_price_1 liquidity_1 fee_bps_1 fee_bps_2 amount_in : Nat) :
    Nat :=
  let m := clmmAmountBMid sqrt_price_1 liquidity_1 fee_bps_1 amount_in
  m - m * fee_bps_2 / 10000

/-- `b_times_sqrt` in `simulate_clmm_arb` (checked multiply, `u128::MAX` on
overflow). -/
def clmmBTimesSqrt (sqrt_price_1 liquidity_1 sqrt_price_2 fee_bps_1 fee_bps_2
    amount_in : Nat) : Nat :=
  ((checkedMul128 (clmmAfterFee2 sqrt_price_1 liquidity_1 fee_bps_1 fee_bps_2 amount_in)
      (sqrt_price_2 / 2 ^ 32)).map (· / 2 ^ 32)).getD (U128MOD - 1)

/-- `new_sqrt_2` in `simulate_clmm_arb` (checked multiply with `0` on
overflow; the trailing `<< 32` wraps mod `2^128`). -/
def clmmNewSqrt2 (sqrt_price_1 liquidity_1 sqrt_price_2 liquidity_2 fee_bps_1
    fee_bps_2 amount_in : Nat) : Nat :=
  let denom := liquidity_2 -
    clmmBTimesSqrt sqrt_price_1 liquidity_1 sqrt_price_2 fee_bps_1 fee_bps_2 amount_in
  (((checkedMul128 liquidity_2 (sqrt_price_2 / 2 ^ 32)).map
    (· / denom)).map (fun v => v * 2 ^ 32 % U128MOD)).getD 0

/-- `amount_a_out` in `simulate_clmm_arb` (checked multiply, `0` on
overflow). -/
def clmmAmountAOut (sqrt_price_1 liquidity_1 sqrt_price_2 liquidity_2 fee_bps_1
    fee_bps_2 amount_in : Nat) : Nat :=
  ((checkedMul128 liquidity_2
      (clmmNewSqrt2 sqrt_price_1 liquidity_1 sqrt_price_2 liquidity_2 fee_bps_1
        fee_bps_2 amount_in - sqrt_price_2)).map
    (· / 2 ^ 64)).getD 0

/-- `simulate_clmm_arb` in `strategy/src/optimizer.rs` (single-tick CLMM
round trip in Q64.64; the named local variables of the source are the
`clmm*` definitions above; the final `as u64` cast wraps mod `2^64`). -/
def simulate_clmm_arb (sqrt_price_1 liquidity_1 sqrt_price_2 liquidity_2
    fee_bps_1 fee_bps_2 amount_in : Nat) : Nat :=
  if liquidity_1 = 0 ∨ liquidity_2 = 0 ∨ sqrt_price_1 = 0 ∨ sqrt_price_2 = 0 then 0
  else if clmmAfterFee1 fee_bps_1 amount_in = 0 then 0
  else if clmmNewSqrt1 sqrt_price_1 liquidity_1 fee_bps_1 amount_in = 0 then 0
  else if clmmAmountBMid sqrt_price_1 liquidity_1 fee_bps_1 amount_in = 0 then 0
  else if clmmAfterFee2 sqrt_price_1 liquidity_1 fee_bps_1 fee_bps_2 amount_in = 0
    then 0
  else if liquidity_2 ≤
      clmmBTimesSqrt sqrt_price_1 liquidity_1 sqrt_price_2 fee_bps_1 fee_bps_2
        amount_in then 0
  else if clmmNewSqrt2 sqrt_price_1 liquidity_1 sqrt_price_2 liquidity_2 fee_bps_1
      fee_bps_2 amount_in ≤ sqrt_price_2 then 0
  else if clmmAmountAOut sqrt_price_1 liquidity_1 sqrt_price_2 liquidity_2 fee_bps_1
      fee_bps_2 amount_in ≤ amount_in then 0
  else
    (clmmAmountAOut sqrt_price_1 liquidity_1 sqrt_price_2 liquidity_2 fee_bps_1
      fee_bps_2 amount_in - amount_in) % U64MOD

/-- `MAX_TRADE_MIST` (100 SUI hard cap). -/
def MAX_TRADE_MIST : Nat := 100000000000

/-- `max_trade_amount` in `strategy/src/optimizer.rs`. -/
def max_trade_amount (pool : PoolState) : Nat :=
  let raw :=
    match pool.dex with
    | .Aftermath | .FlowxAmm =>
      match pool.reserve_a, pool.reserve_b with
      | some a, some b => min a b / 3
      | some a, none => a / 3
      | none, some b => b / 3
      | none, none => 10000000000
    | .Cetus | .Turbos | .FlowxClmm =>
      match pool.liquidity with
      | some l => if l / 2 ^ 32 < U64MOD then l / 2 ^ 32 else MAX_TRADE_MIST
      | none => 10000000000
    | .DeepBook => pool.reserve_a.getD 10000000000 / 3
  min (max raw 1000) MAX_TRADE_MIST

/-- The `is_amm` closure of `build_local_simulator`. -/
def isAmmDex (dex : Dex) : Bool :=
  match dex with
  | .Aftermath | .FlowxAmm => true
  | _ => false

/-- The `is_clmm` closure of `build_local_simulator`. -/
def isClmmDex (dex : Dex) : Bool :=
  match dex with
  | .Cetus | .Turbos | .FlowxClmm => true
  | _ => false

/-- `build_local_simulator` in `strategy/src/optimizer.rs`: the boxed
simulation closure together with the search upper bound. -/
def build_local_simulator (flash_pool sell_pool : PoolState) :
    (Nat → Nat) × Nat :=
  let hi := min (max_trade_amount flash_pool) (max_trade_amount sell_pool)
  let fee1 := flash_pool.fee_rate_bps.getD 30
  let fee2 := sell_pool.fee_rate_bps.getD 30
  if isAmmDex flash_pool.dex && isAmmDex sell_pool.dex then
    let ra1 := flash_pool.reserve_a.getD 0
    let rb1 := flash_pool.reserve_b.getD 0
    let ra2 := sell_pool.reserve_a.getD 0
    let rb2 := sell_pool.reserve_b.getD 0
    (fun amount => simulate_xy_arb ra1 rb1 ra2 rb2 fee1 fee2 amount, hi)
  else if isClmmDex flash_pool.dex && isClmmDex sell_pool.dex then
    let sp1 := flash_pool.sqrt_price.getD 0
    let l1 := flash_pool.liquidity.getD 0
    let sp2 := sell_pool.sqrt_price.getD 0
    let l2 := sell_pool.liquidity.getD 0
    (fun amount => simulate_clmm_arb sp1 l1 sp2 l2 fee1 fee2 amount, hi)
  else
    let price1 := (flash_pool.price_a_in_b).getD 1
    let price2 := (sell_pool.price_a_in_b).getD 1
    let virtual_depth : Nat := 1000000000
    let ra1 := virtual_depth
    let rb1 := f64ToU64 ((virtual_depth : ℚ) * price1)
    let ra2 := virtual_depth
    let rb2 := f64ToU64 ((virtual_depth : ℚ) * price2)
    (fun amount => simulate_xy_arb ra1 rb1 ra2 rb2 fee1 fee2 amount, hi)

/-! ## `types/src/opportunity.rs` -/

/-- `StrategyType`: which on-chain strategy entry function to call. -/
inductive StrategyType where
  | CetusToTurbos
  | CetusToTurbosRev
  | TurbosToCetus
  | CetusToDeepBook
  | DeepBookToCetus
  | TurbosToDeepBook
  | DeepBookToTurbos
  | CetusToAftermath
  | CetusToAftermathRev
  | TurbosToAftermath
  | DeepBookToAftermath
  | CetusToFlowxClmm
  | FlowxClmmToCetus
  | TurbosToFlowxClmm
  | FlowxClmmToTurbos
  | DeepBookToFlowxClmm
  | FlowxClmmToDeepBook
  | CetusToFlowxAmm
  | TurbosToFlowxAmm
  | DeepBookToFlowxAmm
  | TriCetusCetusCetus
  | TriCetusCetusTurbos
  | TriCetusTurbosDeepBook
  | TriCetusDeepBookTurbos
  | TriDeepBookCetusTurbos
  | TriCetusCetusAftermath
  | TriCetusTurbosAftermath
  | TriCetusCetusFlowxClmm
  | TriCetusFlowxClmmTurbos
  | TriFlowxClmmCetusTurbos
  | TriCetusCetusCetusV2
deriving DecidableEq, Repr

/-- `StrategyType::move_module` ("two_hop" or "tri_hop"). -/
def StrategyType.move_module (s : StrategyType) : String :=
  match s with
  | .TriCetusCetusCetus | .TriCetusCetusTurbos | .TriCetusTurbosDeepBook
  | .TriCetusDeepBookTurbos | .TriDeepBookCetusTurbos | .TriCetusCetusAftermath
  | .TriCetusTurbosAftermath | .TriCetusCetusFlowxClmm | .TriCetusFlowxClmmTurbos
  | .TriFlowxClmmCetusTurbos => "tri_hop"
  | _ => "two_hop"

/-- `ArbOpportunity`: a detected arbitrage opportunity. -/
structure ArbOpportunity where
  strategy : StrategyType
  amount_in : Nat
  expected_profit : Nat
  estimated_gas : Nat
  net_profit : Int
  pool_ids : List String
  type_args : List String
  detected_at_ms : Nat
deriving DecidableEq, Repr

/-! ## `strategy/src/scanner.rs` -/

/-- `MAX_REALISTIC_SPREAD` (50%). -/
def MAX_REALISTIC_SPREAD : ℚ := 1 / 2

/-- The scanner's configuration (`Scanner` minus the logging counter). -/
structure Scanner where
  min_profit_mist : Nat
  max_staleness_ms : Nat
deriving DecidableEq, Repr

/-- `Scanner::new`. -/
def Scanner.new (min_profit_mist : Nat) : Scanner :=
  { min_profit_mist, max_staleness_ms := 5000 }

/-- `same_pair`: two pools trade the same token pair (in either order). -/
def same_pair (a b : PoolState) : Bool :=
  (a.coin_type_a = b.coin_type_a ∧ a.coin_type_b = b.coin_type_b)
  ∨ (a.coin_type_a = b.coin_type_b ∧ a.coin_type_b = b.coin_type_a)

/-- `resolve_strategy`: the closed `(flash_source_dex, sell_dex)` dispatch
table. -/
def resolve_strategy (flash_dex sell_dex : Dex) : Option StrategyType :=
  match flash_dex, sell_dex with
  | .Cetus, .Turbos => some .CetusToTurbos
  | .Turbos, .Cetus => some .TurbosToCetus
  | .Cetus, .DeepBook => some .CetusToDeepBook
  | .DeepBook, .Cetus => some .DeepBookToCetus
  | .Turbos, .DeepBook => some .TurbosToDeepBook
  | .DeepBook, .Turbos => some .DeepBookToTurbos
  | .Cetus, .Aftermath => some .CetusToAftermath
  | .Turbos, .Aftermath => some .TurbosToAftermath
  | .DeepBook, .Aftermath => some .DeepBookToAftermath
  | .Cetus, .FlowxClmm => some .CetusToFlowxClmm
  | .FlowxClmm, .Cetus => some .FlowxClmmToCetus
  | .Turbos, .FlowxClmm => some .TurbosToFlowxClmm
  | .FlowxClmm, .Turbos => some .FlowxClmmToTurbos
  | .DeepBook, .FlowxClmm => some .DeepBookToFlowxClmm
  | .FlowxClmm, .DeepBook => some .FlowxClmmToDeepBook
  | .Cetus, .FlowxAmm => none
  | .Turbos, .FlowxAmm => none
  | .DeepBook, .FlowxAmm => none
  | .Aftermath, _ => none
  | .FlowxAmm, _ => none
  | _, _ => none

/-- `resolve_tri_strategy`: the closed `(dex1, dex2, dex3)` tri-hop table. -/
def resolve_tri_strategy (dex1 dex2 dex3 : Dex) : Option StrategyType :=
  match dex1, dex2, dex3 with
  | .Cetus, .Cetus, .Cetus => some .TriCetusCetusCetus
  | .Cetus, .Cetus, .Turbos => some .TriCetusCetusTurbos
  | .Cetus, .Turbos, .DeepBook => some .TriCetusTurbosDeepBook
  | .Cetus, .DeepBook, .Turbos => some .TriCetusDeepBookTurbos
  | .DeepBook, .Cetus, .Turbos => some .TriDeepBookCetusTurbos
  | .Cetus, .Cetus, .Aftermath => some .TriCetusCetusAftermath
  | .Cetus, .Turbos, .Aftermath => some .TriCetusTurbosAftermath
  | .Cetus, .Cetus, .FlowxClmm => some .TriCetusCetusFlowxClmm
  | .Cetus, .FlowxClmm, .Turbos => some .TriCetusFlowxClmmTurbos
  | .FlowxClmm, .Cetus, .Turbos => some .TriFlowxClmmCetusTurbos
  | _, _, _ => none

/-- `resolve_tri_strategy_v2` (third leg swapped b2a). -/
def resolve_tri_strategy_v2 (dex1 dex2 dex3 : Dex) : Option StrategyType :=
  match dex1, dex2, dex3 with
  | .Cetus, .Cetus, .Cetus => some .TriCetusCetusCetusV2
  | _, _, _ => none

/-- `find_turbos_fee_type`: fee type of the first Turbos pool in the set. -/
def find_turbos_fee_type (pools : List PoolState) : Option String :=
  (pools.find? fun p => p.dex = Dex.Turbos).bind fun p => p.fee_type

/-- `shared_token`: `(shared, other_from_p1, other_from_p2)`. -/
def shared_token (p1 p2 : PoolState) : Option (String × String × String) :=
  if p1.coin_type_a = p2.coin_type_a then
    some (p1.coin_type_a, p1.coin_type_b, p2.coin_type_b)
  else if p1.coin_type_a = p2.coin_type_b then
    some (p1.coin_type_a, p1.coin_type_b, p2.coin_type_a)
  else if p1.coin_type_b = p2.coin_type_a then
    some (p1.coin_type_b, p1.coin_type_a, p2.coin_type_b)
  else if p1.coin_type_b = p2.coin_type_b then
    some (p1.coin_type_b, p1.coin_type_a, p2.coin_type_a)
  else none

/-- `pool_has_pair`: the pool trades a specific pair (in either order). -/
def pool_has_pair (pool : PoolState) (token_x token_y : String) : Bool :=
  (pool.coin_type_a = token_x ∧ pool.coin_type_b = token_y)
  ∨ (pool.coin_type_a = token_y ∧ pool.coin_type_b = token_x)

/-- `pool_price_for_direction`: effective price for swapping `from → to`. -/
def pool_price_for_direction (pool : PoolState) (frm tgt : String) : Option ℚ :=
  (pool.price_a_in_b).bind fun base_price =>
    let normalized := normalize_price base_price pool.coin_type_a pool.coin_type_b
    if pool.coin_type_a = frm ∧ pool.coin_type_b = tgt then some normalized
    else if pool.coin_type_b = frm ∧ pool.coin_type_a = tgt then
      if 0 < normalized then some (1 / normalized) else none
    else none

/-- The fixed permutation order of `resolve_tri_with_ordering`. -/
def triPerms : List (Nat × Nat × Nat) :=
  [(0, 1, 2), (0, 2, 1), (1, 0, 2), (1, 2, 0), (2, 0, 1), (2, 1, 0)]

/-- A placeholder pool used only to give total list indexing; every index
used below is in range. -/
def dummyPool : PoolState :=
  { object_id := "", dex := .Cetus, coin_type_a := "", coin_type_b := ""
    sqrt_price := none, tick_index := none, liquidity := none
    fee_rate_bps := none, reserve_a := none, reserve_b := none
    best_bid := none, best_ask := none, last_updated_ms := 0, fee_type := none }

/-- `resolve_tri_with_ordering`: validated tri-hop pool ordering.  Tries the
a2b cycle (v1 strategies) over all six permutations first, then the
b2a-third-leg layout (v2 strategies). -/
def resolve_tri_with_ordering (p1 p2 p3 : PoolState) :
    Option (StrategyType × List PoolState × List String) :=
  let pools : List PoolState := [p1, p2, p3]
  let try1 :=
    triPerms.findSome? fun perm =>
      let pa := pools.getD perm.1 dummyPool
      let pb := pools.getD perm.2.1 dummyPool
      let pc := pools.getD perm.2.2 dummyPool
      if pa.coin_type_b = pb.coin_type_a ∧ pb.coin_type_b = pc.coin_type_a
          ∧ pc.coin_type_b = pa.coin_type_a then
        (resolve_tri_strategy pa.dex pb.dex pc.dex).map fun strategy =>
          (strategy, [pa, pb, pc],
           [pa.coin_type_a, pa.coin_type_b, pb.coin_type_b])
      else none
  match try1 with
  | some r => some r
  | none =>
    triPerms.findSome? fun perm =>
      let pa := pools.getD perm.1 dummyPool
      let pb := pools.getD perm.2.1 dummyPool
      let pc := pools.getD perm.2.2 dummyPool
      if pa.coin_type_b = pb.coin_type_a ∧ pc.coin_type_a = pa.coin_type_a
          ∧ pc.coin_type_b = pb.coin_type_b then
        (resolve_tri_strategy_v2 pa.dex pb.dex pc.dex).map fun strategy =>
          (strategy, [pa, pb, pc],
           [pa.coin_type_a, pa.coin_type_b, pb.coin_type_b])
      else none

/-- Stable insertion (descending by `expected_profit`): the model of
`Vec::sort_by(|a, b| b.expected_profit.cmp(&a.expected_profit))`, which is a
stable sort — stable sorts by a fixed key are unique as functions. -/
def insertDesc (o : ArbOpportunity) : List ArbOpportunity → List ArbOpportunity
  | [] => [o]
  | x :: xs =>
    if x.expected_profit ≤ o.expected_profit then o :: x :: xs
    else x :: insertDesc o xs

/-- Stable sort, descending by `expected_profit`. -/
def sortByProfitDesc : List ArbOpportunity → List ArbOpportunity
  | [] => []
  | x :: xs => insertDesc x (sortByProfitDesc xs)

/-- The body of the `scan_two_hop` double loop for one `(pool_a, pool_b)`
pair: the opportunity pushed for that pair, if any (the logging counters of
the source are omitted). -/
def checkPair (s : Scanner) (now_ms : Nat) (pool_a pool_b : PoolState) :
    Option ArbOpportunity :=
  if s.max_staleness_ms < pool_a.staleness_ms now_ms
      ∨ s.max_staleness_ms < pool_b.staleness_ms now_ms then none
  else if ¬ same_pair pool_a pool_b then none
  else
    match pool_a.price_a_in_b, pool_b.price_a_in_b with
    | some price_a, some price_b =>
      let adj_a := normalize_price price_a pool_a.coin_type_a pool_a.coin_type_b
      let adj_b := normalize_price price_b pool_b.coin_type_a pool_b.coin_type_b
      let norm_a := adj_a
      let norm_b := if pool_a.coin_type_a = pool_b.coin_type_a then adj_b
                    else 1 / adj_b
      let spread := |norm_a - norm_b| / min norm_a norm_b
      if 1 / 1000 < spread then
        if MAX_REALISTIC_SPREAD < spread then none
        else
          let flash_pool := if norm_a < norm_b then pool_a else pool_b
          let sell_pool := if norm_a < norm_b then pool_b else pool_a
          match resolve_strategy flash_pool.dex sell_pool.dex with
          | some strategy =>
            let est_amount : Nat := 1000000000
            let est_profit := f64ToU64 ((est_amount : ℚ) * spread * (1 / 2))
            if s.min_profit_mist < est_profit then
              some { strategy
                     amount_in := est_amount
                     expected_profit := est_profit
                     estimated_gas := 5000000
                     net_profit := i64OfU64 est_profit - 5000000
                     pool_ids := [flash_pool.object_id, sell_pool.object_id]
                     type_args :=
                       [flash_pool.coin_type_a, flash_pool.coin_type_b] ++
                       (match find_turbos_fee_type [flash_pool, sell_pool] with
                        | some ft => [ft]
                        | none => [])
                     detected_at_ms := now_ms }
            else none
          | none => none
      else none
    | _, _ => none

/-- The `(i, j), i < j` pair enumeration order of the `scan_two_hop` loops. -/
def pairsOf : List PoolState → List (PoolState × PoolState)
  | [] => []
  | x :: xs => xs.map (fun y => (x, y)) ++ pairsOf xs

/-- `Scanner::scan_two_hop` (with `now_ms` passed in at the I/O boundary). -/
def Scanner.scan_two_hop (s : Scanner) (now_ms : Nat)
    (pools : List PoolState) : List ArbOpportunity :=
  sortByProfitDesc
    ((pairsOf pools).filterMap fun pq => checkPair s now_ms pq.1 pq.2)

/-- The body of the innermost `scan_tri_hop` loop for a fixed `(p1, p2, p3)`
and the shared-token decomposition of `(p1, p2)`. -/
def triEmit (s : Scanner) (now_ms : Nat) (p1 p2 p3 : PoolState)
    (token_b token_a token_c : String) : Option ArbOpportunity :=
  if ¬ pool_has_pair p3 token_c token_a then none
  else
    match pool_price_for_direction p1 token_a token_b,
          pool_price_for_direction p2 token_b token_c,
          pool_price_for_direction p3 token_c token_a with
    | some pab, some pbc, some pca =>
      let cross_rate := pab * pbc * pca
      if 101 / 100 < cross_rate ∧ cross_rate < 1 + MAX_REALISTIC_SPREAD then
        match resolve_tri_with_ordering p1 p2 p3 with
        | some (strategy, ordered_pools, type_args) =>
          let spread := cross_rate - 1
          let est_amount : Nat := 5000000000
          let est_profit := f64ToU64 ((est_amount : ℚ) * spread * (3 / 20))
          let tri_gas_estimate : Nat := 4000000
          if s.min_profit_mist < est_profit then
            some { strategy
                   amount_in := est_amount
                   expected_profit := est_profit
                   estimated_gas := tri_gas_estimate
                   net_profit := i64OfU64 est_profit - (tri_gas_estimate : Int)
                   pool_ids := ordered_pools.map (fun p => p.object_id)
                   type_args :=
                     type_args ++
                     (match find_turbos_fee_type [p1, p2, p3] with
                      | some ft => [ft]
                      | none => [])
                   detected_at_ms := now_ms }
          else none
        | none => none
      else none
    | _, _, _ => none

/-- The raw opportunity stream of `scan_tri_hop`, in the enumeration order of
its three nested loops over the `fresh` vector (`std::ptr::eq` on distinct
slice elements is index inequality). -/
def triEmissions (s : Scanner) (now_ms : Nat) (pools : List PoolState) :
    List ArbOpportunity :=
  let fresh := pools.filter fun p =>
    decide (p.staleness_ms now_ms ≤ s.max_staleness_ms)
  let n := fresh.length
  (List.range n).flatMap fun i =>
    (List.range n).flatMap fun j =>
      if i = j then []
      else
        match shared_token (fresh.getD i dummyPool) (fresh.getD j dummyPool) with
        | none => []
        | some (token_b, token_a, token_c) =>
          (List.range n).filterMap fun k =>
            if k = i ∨ k = j then none
            else
              triEmit s now_ms (fresh.getD i dummyPool) (fresh.getD j dummyPool)
                (fresh.getD k dummyPool) token_b token_a token_c

/-- Ascending insertion for strings (the model of `Vec::sort` on `String`). -/
def insertStrAsc (x : String) : List String → List String
  | [] => [x]
  | y :: ys => if y < x then y :: insertStrAsc x ys else x :: y :: ys

/-- Ascending sort for strings. -/
def sortStrAsc : List String → List String
  | [] => []
  | x :: xs => insertStrAsc x (sortStrAsc xs)

/-- The `dedup_by` predicate of `scan_tri_hop`: equal pool-id triples after
sorting. -/
def sameTriple (a b : ArbOpportunity) : Bool :=
  sortStrAsc a.pool_ids = sortStrAsc b.pool_ids

/-- The run of `Vec::dedup_by` after its first kept element: a candidate that
matches the last kept element is dropped, otherwise it is kept and becomes
the new comparison point. -/
def dedupByKeep (r : ArbOpportunity → ArbOpportunity → Bool)
    (last : ArbOpportunity) : List ArbOpportunity → List ArbOpportunity
  | [] => []
  | y :: ys =>
    if r y last then dedupByKeep r last ys else y :: dedupByKeep r y ys

/-- `Vec::dedup_by`: removes all but the first of consecutive elements
related by `r` (the predicate receives the candidate first, the last kept
element second, as in Rust). -/
def dedupBy (r : ArbOpportunity → ArbOpportunity → Bool) :
    List ArbOpportunity → List ArbOpportunity
  | [] => []
  | x :: xs => x :: dedupByKeep r x xs

/-- `Scanner::scan_tri_hop` (with `now_ms` passed in at the I/O boundary). -/
def Scanner.scan_tri_hop (s : Scanner) (now_ms : Nat)
    (pools : List PoolState) : List ArbOpportunity :=
  sortByProfitDesc (dedupBy sameTriple (triEmissions s now_ms pools))

/-! ## `collector/src/parsers` — JSON value trees and field helpers

The decoded on-chain object surface is a dynamically typed JSON tree; the
collector inputs use objects, arrays, strings and (nonnegative integer)
numbers, which is what this model carries. -/

/-- The JSON value tree handed to the parsers. -/
inductive Json where
  | null
  | str (s : String)
  | num (n : Nat)
  | arr (items : List Json)
  | obj (fields : List (String × Json))

/-- `Value::get(key)` — object field lookup. -/
def Json.get? : Json → String → Option Json
  | .obj fs, k => (fs.find? fun kv => kv.1 = k).map fun kv => kv.2
  | _, _ => none

/-- `Value::as_str`. -/
def Json.asStr? : Json → Option String
  | .str s => some s
  | _ => none

/-- `Value::as_u64`. -/
def Json.asU64? : Json → Option Nat
  | .num n => if n < U64MOD then some n else none
  | _ => none

/-- `Value::as_i64` (JSON numbers are modelled as nonnegative integers). -/
def Json.asI64? : Json → Option Int
  | .num n => if n < 2 ^ 63 then some ((n : Int)) else none
  | _ => none

/-- `Value::as_array`. -/
def Json.asArr? : Json → Option (List Json)
  | .arr xs => some xs
  | _ => none

/-- Decimal digit value. -/
def digitVal (c : Char) : Option Nat :=
  if '0' ≤ c ∧ c ≤ '9' then some (c.toNat - '0'.toNat) else none

/-- Accumulate decimal digits. -/
def parseDigitsAux : List Char → Nat → Option Nat
  | [], acc => some acc
  | c :: cs, acc =>
    match digitVal c with
    | some d => parseDigitsAux cs (acc * 10 + d)
    | none => none

/-- Parse a nonempty all-digit decimal string to a natural number — the model
of Rust `str::parse` for the unsigned integer types (range checks are applied
at the call sites). -/
def parseDecNat (s : String) : Option Nat :=
  match s.data with
  | [] => none
  | cs => parseDigitsAux cs 0

/-- Model of `str::parse::<f64>` on the decimal-integer strings used by the
on-chain encodings (balances and fees are integer strings); the parsed float
is idealized as an exact rational. -/
def parseF64 (s : String) : Option ℚ :=
  (parseDecNat s).map fun n => (n : ℚ)

/-- `field_u64` in `collector/src/parsers/mod.rs`: accepts numeric and
string-encoded values (`Result` collapsed to `Option`, as every caller uses
`.ok()`). -/
def field_u64 (fields : Json) (name : String) : Option Nat :=
  (fields.get? name).bind fun v =>
    match v.asU64? with
    | some n => some n
    | none =>
      (v.asStr?).bind fun s =>
        (parseDecNat s).bind fun n => if n < U64MOD then some n else none

/-- `field_u128` in `collector/src/parsers/mod.rs`. -/
def field_u128 (fields : Json) (name : String) : Option Nat :=
  ((fields.get? name).bind Json.asStr?).bind fun s =>
    (parseDecNat s).bind fun n => if n < U128MOD then some n else none

/-- `PoolMeta` (from `collector/src/rpc_poller.rs`). -/
structure PoolMeta where
  object_id : String
  dex : String
  coin_type_a : String
  coin_type_b : String
deriving DecidableEq, Repr

/-- The tick-index extraction chain shared verbatim by the Cetus, Turbos and
FlowX CLMM parsers (only the field name differs):
`fields.get(name).and_then(|v| v.get("fields")).and_then(|f| f.get("bits"))`
then `as_u64 → (bits as u32) as i32`, falling back to
`as_i64 → v as i32`. -/
def extractTickIndex (fields : Json) (name : String) : Option Int :=
  (((fields.get? name).bind fun v => v.get? "fields").bind fun f =>
      f.get? "bits").bind fun b =>
    match (b.asU64?).map castU32I32 with
    | some t => some t
    | none => (b.asI64?).map castI64I32

/-- `cetus::parse` in `collector/src/parsers/cetus.rs`. -/
def cetusParse (content : Json) (meta : PoolMeta) (now_ms : Nat) :
    Except String PoolState :=
  match content.get? "fields" with
  | none => .error "Missing fields in Cetus pool"
  | some fields =>
    .ok { object_id := meta.object_id
          dex := .Cetus
          coin_type_a := meta.coin_type_a
          coin_type_b := meta.coin_type_b
          sqrt_price := field_u128 fields "current_sqrt_price"
          tick_index := extractTickIndex fields "current_tick_index"
          liquidity := field_u128 fields "liquidity"
          fee_rate_bps := (field_u64 fields "fee_rate").map fun f => f / 100
          reserve_a := none
          reserve_b := none
          best_bid := none
          best_ask := none
          last_updated_ms := now_ms
          fee_type := none }

/-- `turbos::parse` in `collector/src/parsers/turbos.rs`. -/
def turbosParse (content : Json) (meta : PoolMeta) (now_ms : Nat) :
    Except String PoolState :=
  match content.get? "fields" with
  | none => .error "Missing fields in Turbos pool"
  | some fields =>
    .ok { object_id := meta.object_id
          dex := .Turbos
          coin_type_a := meta.coin_type_a
          coin_type_b := meta.coin_type_b
          sqrt_price := field_u128 fields "sqrt_price"
          tick_index := extractTickIndex fields "tick_current_index"
          liquidity := field_u128 fields "liquidity"
          fee_rate_bps := (field_u64 fields "fee").map fun f => f / 100
          reserve_a := none
          reserve_b := none
          best_bid := none
          best_ask := none
          last_updated_ms := now_ms
          fee_type := none }

/-- `flowx::parse` in `collector/src/parsers/flowx.rs` (FlowX CLMM v3). -/
def flowxParse (content : Json) (meta : PoolMeta) (now_ms : Nat) :
    Except String PoolState :=
  match content.get? "fields" with
  | none => .error "Missing fields in FlowX pool"
  | some fields =>
    .ok { object_id := meta.object_id
          dex := .FlowxClmm
          coin_type_a := meta.coin_type_a
          coin_type_b := meta.coin_type_b
          sqrt_price := field_u128 fields "sqrt_price"
          tick_index := extractTickIndex fields "tick_index"
          liquidity := field_u128 fields "liquidity"
          fee_rate_bps := (field_u64 fields "swap_fee_rate").map fun f => f / 100
          reserve_a := none
          reserve_b := none
          best_bid := none
          best_ask := none
          last_updated_ms := now_ms
          fee_type := none }

/-- `extract_normalized_balance` in `collector/src/parsers/aftermath.rs`. -/
def extract_normalized_balance (fields : Json) (index : Nat) : Option ℚ :=
  ((((fields.get? "normalized_balances").bind Json.asArr?).bind
    fun arr => arr[index]?).bind Json.asStr?).bind parseF64

/-- `extract_fee_bps` in `collector/src/parsers/aftermath.rs`
(18-decimal fixed-point → bps via `value / 1e18 * 10000`, truncating cast). -/
def extract_fee_bps (fields : Json) : Option Nat :=
  (((((fields.get? "fees_swap_in").bind Json.asArr?).bind
    fun arr => arr[0]?).bind Json.asStr?).bind parseF64).map
    fun fee_18d => f64ToU64 (fee_18d / (10 : ℚ) ^ 18 * 10000)

/-- `aftermath::parse` in `collector/src/parsers/aftermath.rs`. -/
def aftermathParse (content : Json) (meta : PoolMeta) (now_ms : Nat) :
    Except String PoolState :=
  match content.get? "fields" with
  | none => .error "Missing fields in Aftermath pool"
  | some fields =>
    let norm_a := extract_normalized_balance fields 0
    let norm_b := extract_normalized_balance fields 1
    let reserves : Option Nat × Option Nat :=
      match norm_a, norm_b with
      | some a, some b =>
        if 0 < a then
          let virtual_depth : Nat := 1000000000
          let price := b / a
          let rb := f64ToU64 ((virtual_depth : ℚ) * price)
          (some virtual_depth, some (max rb 1))
        else (none, none)
      | _, _ => (none, none)
    .ok { object_id := meta.object_id
          dex := .Aftermath
          coin_type_a := meta.coin_type_a
          coin_type_b := meta.coin_type_b
          sqrt_price := none
          tick_index := none
          liquidity := none
          fee_rate_bps := extract_fee_bps fields
          reserve_a := reserves.1
          reserve_b := reserves.2
          best_bid := none
          best_ask := none
          last_updated_ms := now_ms
          fee_type := none }

/-! ## `executor/src/ptb_builder.rs`

Only the pure argument construction is modelled (`build` itself performs the
RPC round trip).  All value arguments in the source are JSON strings — object
ids, stringified `u64`s, and the clock id `"0x6"` — so the argument vector is
a `List String`. -/

/-- `PtbBuilder` (the HTTP client and RPC URL are network state and are not
part of the argument construction). -/
structure PtbBuilder where
  package_id : String
  admin_cap_id : String
  pause_flag_id : String
  sender : String
  gas_budget : Nat
  cetus_global_config : String
  turbos_versioned : String
  flowx_versioned : String
  aftermath_registry : String
  aftermath_fee_vault : String
  aftermath_treasury : String
  aftermath_insurance : String
  aftermath_referral : String
  flowx_container : String
  deep_fee_coin_id : String
deriving DecidableEq, Repr

/-- `PtbBuilder::base_args`: `[admin_cap, pause_flag]`. -/
def PtbBuilder.base_args (b : PtbBuilder) : List String :=
  [b.admin_cap_id, b.pause_flag_id]

/-- `PtbBuilder::aftermath_args` (6 shared objects). -/
def PtbBuilder.aftermath_args (b : PtbBuilder) (aftermath_pool_id : String) :
    List String :=
  [aftermath_pool_id, b.aftermath_registry, b.aftermath_fee_vault,
   b.aftermath_treasury, b.aftermath_insurance, b.aftermath_referral]

/-- `PtbBuilder::tail_args`: `[amount, min_profit, clock]`. -/
def PtbBuilder.tail_args (_b : PtbBuilder) (amount min_profit : String) :
    List String :=
  [amount, min_profit, "0x6"]

/-- `PtbBuilder::build_args`: argument list and type arguments for a
strategy.  `u64` multiplication wraps, division and `max` follow the source:
`min_profit = max(expected_profit * 9 / 10, 1)`.  The indexing
`opp.pool_ids[i]` is guarded by the length check, so a defaulted `getD` is
exact on every reachable index.  (The source match has no arm for
`TriCetusCetusCetusV2` — that variant is produced by a scanner table but is
absent from the `StrategyType` enum in `types/src/opportunity.rs`; it is
modelled as an error.) -/
def PtbBuilder.build_args (b : PtbBuilder) (opp : ArbOpportunity) :
    Except String (List String × List String) :=
  let expected_pools := if opp.strategy.move_module = "tri_hop" then 3 else 2
  if opp.pool_ids.length < expected_pools then
    .error "insufficient pool ids"
  else
    let amount := toString opp.amount_in
    let min_profit_raw := opp.expected_profit * 9 % U64MOD / 10
    let min_profit := toString (max min_profit_raw 1)
    let pid := fun (i : Nat) => opp.pool_ids.getD i ""
    let args : Option (List String) :=
      match opp.strategy with
      | .CetusToTurbos | .CetusToTurbosRev =>
        some (b.base_args ++ [b.cetus_global_config, pid 0, pid 1,
          b.turbos_versioned] ++ b.tail_args amount min_profit)
      | .TurbosToCetus =>
        some (b.base_args ++ [b.cetus_global_config, pid 1, pid 0,
          b.turbos_versioned] ++ b.tail_args amount min_profit)
      | .CetusToDeepBook =>
        some (b.base_args ++ [b.cetus_global_config, pid 0, pid 1,
          b.deep_fee_coin_id] ++ b.tail_args amount min_profit)
      | .DeepBookToCetus =>
        some (b.base_args ++ [b.cetus_global_config, pid 1, pid 0,
          b.deep_fee_coin_id] ++ b.tail_args amount min_profit)
      | .TurbosToDeepBook =>
        some (b.base_args ++ [pid 0, b.turbos_versioned, pid 1,
          b.deep_fee_coin_id] ++ b.tail_args amount min_profit)
      | .DeepBookToTurbos =>
        some (b.base_args ++ [pid 1, b.turbos_versioned, pid 0,
          b.deep_fee_coin_id] ++ b.tail_args amount min_profit)
      | .CetusToAftermath | .CetusToAftermathRev =>
        some (b.base_args ++ [b.cetus_global_config, pid 0] ++
          b.aftermath_args (pid 1) ++ b.tail_args amount min_profit)
      | .TurbosToAftermath =>
        some (b.base_args ++ [pid 0, b.turbos_versioned] ++
          b.aftermath_args (pid 1) ++ b.tail_args amount min_profit)
      | .DeepBookToAftermath =>
        some (b.base_args ++ [pid 0, b.deep_fee_coin_id] ++
          b.aftermath_args (pid 1) ++ b.tail_args amount min_profit)
      | .CetusToFlowxClmm =>
        some (b.base_args ++ [b.cetus_global_config, pid 0, pid 1,
          b.flowx_versioned] ++ b.tail_args amount min_profit)
      | .FlowxClmmToCetus =>
        some (b.base_args ++ [b.cetus_global_config, pid 1, pid 0,
          b.flowx_versioned] ++ b.tail_args amount min_profit)
      | .TurbosToFlowxClmm =>
        some (b.base_args ++ [pid 0, b.turbos_versioned, pid 1,
          b.flowx_versioned] ++ b.tail_args amount min_profit)
      | .FlowxClmmToTurbos =>
        some (b.base_args ++ [pid 1, b.turbos_versioned, pid 0,
          b.flowx_versioned] ++ b.tail_args amount min_profit)
      | .DeepBookToFlowxClmm =>
        some (b.base_args ++ [pid 0, b.deep_fee_coin_id, pid 1,
          b.flowx_versioned] ++ b.tail_args amount min_profit)
      | .FlowxClmmToDeepBook =>
        some (b.base_args ++ [pid 1, b.deep_fee_coin_id, pid 0,
          b.flowx_versioned] ++ b.tail_args amount min_profit)
      | .CetusToFlowxAmm =>
        some (b.base_args ++ [b.cetus_global_config, pid 0,
          b.flowx_container] ++ b.tail_args amount min_profit)
      | .TurbosToFlowxAmm =>
        some (b.base_args ++ [pid 0, b.turbos_versioned,
          b.flowx_container] ++ b.tail_args amount min_profit)
      | .DeepBookToFlowxAmm =>
        some (b.base_args ++ [pid 0, b.deep_fee_coin_id,
          b.flowx_container] ++ b.tail_args amount min_profit)
      | .TriCetusCetusCetus =>
        some (b.base_args ++ [b.cetus_global_config, pid 0, pid 1, pid 2] ++
          b.tail_args amount min_profit)
      | .TriCetusCetusTurbos =>
        some (b.base_args ++ [b.cetus_global_config, pid 0, pid 1, pid 2,
          b.turbos_versioned] ++ b.tail_args amount min_profit)
      | .TriCetusTurbosDeepBook =>
        some (b.base_args ++ [b.cetus_global_config, pid 0, pid 1,
          b.turbos_versioned, pid 2, b.deep_fee_coin_id] ++
          b.tail_args amount min_profit)
      | .TriCetusDeepBookTurbos =>
        some (b.base_args ++ [b.cetus_global_config, pid 0, pid 1,
          b.deep_fee_coin_id, pid 2, b.turbos_versioned] ++
          b.tail_args amount min_profit)
      | .TriDeepBookCetusTurbos =>
        some (b.base_args ++ [b.cetus_global_config, pid 0,
          b.deep_fee_coin_id, pid 1, pid 2, b.turbos_versioned] ++
          b.tail_args amount min_profit)
      | .TriCetusCetusAftermath =>
        some (b.base_args ++ [b.cetus_global_config, pid 0, pid 1] ++
          b.aftermath_args (pid 2) ++ b.tail_args amount min_profit)
      | .TriCetusTurbosAftermath =>
        some (b.base_args ++ [b.cetus_global_config, pid 0, pid 1,
          b.turbos_versioned] ++ b.aftermath_args (pid 2) ++
          b.tail_args amount min_profit)
      | .TriCetusCetusFlowxClmm =>
        some (b.base_args ++ [b.cetus_global_config, pid 0, pid 1, pid 2,
          b.flowx_versioned] ++ b.tail_args amount min_profit)
      | .TriCetusFlowxClmmTurbos =>
        some (b.base_args ++ [b.cetus_global_config, pid 0, pid 1,
          b.flowx_versioned, pid 2, b.turbos_versioned] ++
          b.tail_args amount min_profit)
      | .TriFlowxClmmCetusTurbos =>
        some (b.base_args ++ [b.cetus_global_config, pid 0,
          b.flowx_versioned, pid 1, pid 2, b.turbos_versioned] ++
          b.tail_args amount min_profit)
      | .TriCetusCetusCetusV2 => none
    match args with
    | some a => .ok (a, opp.type_args)
    | none => .error "strategy variant absent from the source enum"

/-! ## Fixtures and observation helpers used by the verification statements -/

/-- Tick index of a parse result (`None` on parse error). -/
def parsedTick (r : Except String PoolState) : Option Int :=
  match r with
  | .ok p => p.tick_index
  | .error _ => none

/-- `reserve_b` of a parse result. -/
def parsedReserveB (r : Except String PoolState) : Option Nat :=
  match r with
  | .ok p => p.reserve_b
  | .error _ => none

/-- `reserve_a` of a parse result. -/
def parsedReserveA (r : Except String PoolState) : Option Nat :=
  match r with
  | .ok p => p.reserve_a
  | .error _ => none

/-- `fee_rate_bps` of a parse result. -/
def parsedFeeBps (r : Except String PoolState) : Option Nat :=
  match r with
  | .ok p => p.fee_rate_bps
  | .error _ => none

/-- Rounding to the nearest integer (half up) — the reference reading of the
spec's word "round", to be compared against the truncation the code
performs. -/
def roundHalfUp (q : ℚ) : Int :=
  Rat.floor (q + 1 / 2)

/-- A CLMM pool object tree carrying only the tick field `name` with the
given `bits`. -/
def tickOnlyContent (name : String) (bits : Nat) : Json :=
  .obj [("fields", .obj [(name, .obj [("fields", .obj [("bits", .num bits)])])])]

/-- Whether some two (not necessarily consecutive) opportunities of the list
share the same sorted pool-id triple. -/
def hasDupSortedTriple : List ArbOpportunity → Bool
  | [] => false
  | x :: xs => xs.any (fun y => sameTriple x y) || hasDupSortedTriple xs

/-- A Cetus CLMM pool on coins `(ca, cb)` at the given sqrt price (ample
liquidity, fresh at `t = 1000`). -/
def mkCetusTriPool (id ca cb : String) (sp : Nat) : PoolState :=
  { object_id := id
    dex := .Cetus
    coin_type_a := ca
    coin_type_b := cb
    sqrt_price := some sp
    tick_index := some 0
    liquidity := some 1000000000000
    fee_rate_bps := some 30
    reserve_a := none
    reserve_b := none
    best_bid := none
    best_ask := none
    last_updated_ms := 1000
    fee_type := none }

/-- Triangle pool TKA/TKB at price `(33/32)²`. -/
def triP1 : PoolState := mkCetusTriPool "0xp1" "TKA" "TKB" (2 ^ 64 + 2 ^ 59)

/-- Triangle pool TKB/TKC at price 1. -/
def triP2 : PoolState := mkCetusTriPool "0xp2" "TKB" "TKC" (2 ^ 64)

/-- Triangle pool TKC/TKA at price 1 (closes triangle 1). -/
def triP3 : PoolState := mkCetusTriPool "0xp3" "TKC" "TKA" (2 ^ 64)

/-- Triangle pool TKC/TKA at price `(65/64)²` (closes triangle 2 over the
same first two pools). -/
def triP4 : PoolState := mkCetusTriPool "0xp4" "TKC" "TKA" (2 ^ 64 + 2 ^ 58)

/-- A scanner that accepts any positive estimate. -/
def triScanner : Scanner := Scanner.new 0

/-- Aftermath `fields` subtree with `normalized_balances = ["3", "5"]`. -/
def aftFieldsThreeFive : Json :=
  .obj [("normalized_balances", .arr [.str "3", .str "5"])]

/-- Aftermath pool object tree with `normalized_balances = ["3", "5"]`. -/
def aftContentThreeFive : Json :=
  .obj [("fields", aftFieldsThreeFive)]

/-- Parser metadata fixture. -/
def aftMetaFix : PoolMeta :=
  { object_id := "0xaft"
    dex := "aftermath"
    coin_type_a := "0x2::sui::SUI"
    coin_type_b := "0xdba3::usdc::USDC" }

/-- Two-hop witness pool: Cetus at price 1 on TKA/TKB. -/
def wTwoHopA : PoolState := mkCetusTriPool "0xwa" "TKA" "TKB" (2 ^ 64)

/-- Two-hop witness pool: Turbos at price `(33/32)²` on TKA/TKB. -/
def wTwoHopB : PoolState :=
  { mkCetusTriPool "0xwb" "TKA" "TKB" (2 ^ 64 + 2 ^ 59) with dex := .Turbos }

/-- Scanner fixture with the default 10⁶ MIST profit threshold. -/
def wScanner : Scanner := Scanner.new 1000000

/-- Builder fixture (placeholder object ids). -/
def wBuilder : PtbBuilder :=
  { package_id := "0xpkg"
    admin_cap_id := "0xcap"
    pause_flag_id := "0xflag"
    sender := "0xme"
    gas_budget := 50000000
    cetus_global_config := "0xcgc"
    turbos_versioned := "0xtv"
    flowx_versioned := "0xfv"
    aftermath_registry := "0xar"
    aftermath_fee_vault := "0xafv"
    aftermath_treasury := "0xat"
    aftermath_insurance := "0xai"
    aftermath_referral := "0xarf"
    flowx_container := "0xfc"
    deep_fee_coin_id := "0xdfc" }

/-- Opportunity fixture for the builder witness. -/
def wOpp : ArbOpportunity :=
  { strategy := .CetusToTurbos
    amount_in := 1000000000
    expected_profit := 31738281
    estimated_gas := 5000000
    net_profit := 26738281
    pool_ids := ["0xwa", "0xwb"]
    type_args := ["TKA", "TKB"]
    detected_at_ms := 1000 }

/-! ## Claim theorems -/

/-- C9: the Cetus, Turbos and FlowX CLMM parsers reinterpret the on-chain
tick field `{bits : u32}` as a two's-complement i32 — for every `u32` value
of `bits`, the parsed `tick_index` is the two's-complement i32 of `bits`. -/
theorem tick_bits_twos_complement (bits : Nat) (h : bits < 2 ^ 32)
    (meta : PoolMeta) (now_ms : Nat) :
    parsedTick (cetusParse (tickOnlyContent "current_tick_index" bits) meta now_ms)
        = some (twosComplementI32 bits)
    ∧ parsedTick (turbosParse (tickOnlyContent "tick_current_index" bits) meta now_ms)
        = some (twosComplementI32 bits)
    ∧ parsedTick (flowxParse (tickOnlyContent "tick_index" bits) meta now_ms)
        = some (twosComplementI32 bits) := by
  have hb : bits % 2 ^ 32 = bits := Nat.mod_eq_of_lt h
  have hb64 : bits < U64MOD := lt_of_lt_of_le h (by norm_num [U64MOD])
  have hbz : (bits : Int) % 4294967296 = (bits : Int) := by omega
  refine ⟨?_, ?_, ?_⟩ <;>
    simp [cetusParse, turbosParse, flowxParse, tickOnlyContent, parsedTick,
      extractTickIndex, Json.get?, Json.asU64?, List.find?, field_u128, field_u64,
      Json.asStr?, castU32I32, twosComplementI32, hb, hb64, hbz] <;>
    rw [show bits % 4294967296 = bits by omega]

/-- C9 witness: `bits = 2^32 − 100` parses to tick `−100` (Cetus parser). -/
theorem tick_bits_twos_complement_witness :
    (2 ^ 32 - 100 : Nat) < 2 ^ 32
    ∧ parsedTick (cetusParse (tickOnlyContent "current_tick_index" (2 ^ 32 - 100))
        aftMetaFix 0) = some (-100) := by
  refine ⟨by norm_num, ?_⟩
  have := (tick_bits_twos_complement (2 ^ 32 - 100) (by norm_num) aftMetaFix 0).1
  rw [this]
  decide

/-- C10: a pool with `fee_rate_bps = None` is simulated exactly as if it
charged 30 bps — substituting `Some 30` for the missing fee on either leg
leaves the constructed simulator (and its bound) unchanged, for every pair of
pools. -/
theorem build_local_simulator_default_fee (flash_pool sell_pool : PoolState) :
    (flash_pool.fee_rate_bps = none →
      build_local_simulator flash_pool sell_pool =
        build_local_simulator { flash_pool with fee_rate_bps := some 30 } sell_pool)
    ∧ (sell_pool.fee_rate_bps = none →
      build_local_simulator flash_pool sell_pool =
        build_local_simulator flash_pool { sell_pool with fee_rate_bps := some 30 }) := by
  constructor <;> intro h <;>
    simp [build_local_simulator, h, max_trade_amount, PoolState.price_a_in_b]

/-- C10 witness: a Cetus/Turbos pair with both fees missing simulates as with
30 bps on the flash leg. -/
theorem build_local_simulator_default_fee_witness :
    ({ wTwoHopA with fee_rate_bps := none } : PoolState).fee_rate_bps = none
    ∧ build_local_simulator { wTwoHopA with fee_rate_bps := none } wTwoHopB =
        build_local_simulator
          { { wTwoHopA with fee_rate_bps := none } with fee_rate_bps := some 30 }
          wTwoHopB :=
  ⟨rfl, (build_local_simulator_default_fee
      { wTwoHopA with fee_rate_bps := none } wTwoHopB).1 rfl⟩

/-- C1: `price_a_in_b` follows the venue case table — CLMM pools price from
the sqrt price exactly when it is present and liquidity meets the 10⁷
minimum; AMM pools price `reserve_b / reserve_a` exactly when both reserves
are present and `reserve_a > 0`; a CLOB pool prices from bid/ask (midpoint,
single side, or `None`) and never from the vault reserves, whatever their
values. -/
theorem price_a_in_b_venue_table (p : PoolState) :
    ((p.dex = .Cetus ∨ p.dex = .Turbos ∨ p.dex = .FlowxClmm) →
      p.price_a_in_b =
        if MIN_CLMM_LIQUIDITY ≤ p.liquidity.getD 0 then
          p.sqrt_price.map fun sp => ((sp : ℚ) / (2 ^ 64 : ℚ)) ^ 2
        else none)
    ∧ ((p.dex = .Aftermath ∨ p.dex = .FlowxAmm) →
      p.price_a_in_b =
        match p.reserve_a, p.reserve_b with
        | some a, some b => if 0 < a then some ((b : ℚ) / (a : ℚ)) else none
        | _, _ => none)
    ∧ (p.dex = .DeepBook →
      (p.price_a_in_b =
        match p.best_bid, p.best_ask with
        | some bid, some ask => some ((bid + ask) / 2)
        | some bid, none => some bid
        | none, some ask => some ask
        | none, none => none)
      ∧ ∀ ra rb,
        ({ p with reserve_a := ra, reserve_b := rb } : PoolState).price_a_in_b
          = p.price_a_in_b) := by
  refine ⟨?_, ?_, ?_⟩
  · intro h
    rcases Nat.lt_or_ge (p.liquidity.getD 0) MIN_CLMM_LIQUIDITY with hl | hl
    · rcases h with h | h | h <;>
        simp [PoolState.price_a_in_b, h, hl, Nat.not_le_of_lt hl]
    · rcases h with h | h | h <;>
        simp [PoolState.price_a_in_b, h, Nat.not_lt_of_le hl, hl] <;>
        · refine congrArg (Option.bind p.sqrt_price) ?_
          funext a
          rw [sq, show ((2 : ℚ) ^ 64) = 18446744073709551616 by norm_num]
  · intro h
    rcases h with h | h <;> simp [PoolState.price_a_in_b, h]
  · intro h
    exact ⟨by simp [PoolState.price_a_in_b, h],
      fun ra rb => by simp [PoolState.price_a_in_b, h]⟩

/-- C1 witness: a Cetus pool with ample liquidity prices from its sqrt
price. -/
theorem price_a_in_b_venue_table_witness :
    (wTwoHopA.dex = .Cetus ∨ wTwoHopA.dex = .Turbos ∨ wTwoHopA.dex = .FlowxClmm)
    ∧ wTwoHopA.price_a_in_b =
        (if MIN_CLMM_LIQUIDITY ≤ wTwoHopA.liquidity.getD 0 then
          wTwoHopA.sqrt_price.map fun sp => ((sp : ℚ) / (2 ^ 64 : ℚ)) ^ 2
        else none) :=
  ⟨Or.inl rfl, (price_a_in_b_venue_table wTwoHopA).1 (Or.inl rfl)⟩

/-- C2: the circuit-breaker transitions — `record_failure p now` adds `p` to
the PnL, increments the consecutive-failure counter, and trips (recording
`now` and returning `true`) exactly when the new counter reaches
`max_consecutive_failures` or the negated new PnL reaches
`max_cumulative_loss`; `record_success p` adds `p` and zeroes the counter;
`is_trading_allowed now` passes when untripped, resets (clearing the trip
state and the counter, preserving the PnL) and passes when the cooldown has
elapsed, and blocks otherwise — for every state and configuration. -/
theorem circuit_breaker_transitions (cb : CircuitBreaker) (p : Int) (now : Nat) :
    ((cb.record_failure p now).2.cumulative_pnl_mist = cb.cumulative_pnl_mist + p
     ∧ (cb.record_failure p now).2.consecutive_failures = cb.consecutive_failures + 1
     ∧ ((cb.record_failure p now).1 = true ↔
         cb.max_consecutive_failures ≤ cb.consecutive_failures + 1
         ∨ cb.max_cumulative_loss_mist ≤ -(cb.cumulative_pnl_mist + p))
     ∧ (cb.record_failure p now).2.tripped_at_ms =
         (if cb.max_consecutive_failures ≤ cb.consecutive_failures + 1
             ∨ cb.max_cumulative_loss_mist ≤ -(cb.cumulative_pnl_mist + p)
          then some now else cb.tripped_at_ms))
    ∧ ((cb.record_success p).cumulative_pnl_mist = cb.cumulative_pnl_mist + p
       ∧ (cb.record_success p).consecutive_failures = 0
       ∧ (cb.record_success p).tripped_at_ms = cb.tripped_at_ms)
    ∧ (cb.is_trading_allowed now =
        match cb.tripped_at_ms with
        | none => (true, cb)
        | some t =>
          if cb.cooldown_ms ≤ now - t then (true, cb.reset) else (false, cb))
    ∧ ((cb.reset).consecutive_failures = 0
       ∧ (cb.reset).cumulative_pnl_mist = cb.cumulative_pnl_mist
       ∧ (cb.reset).tripped_at_ms = none) := by
  have hfail1 : (cb.record_failure p now).2.cumulative_pnl_mist
      = cb.cumulative_pnl_mist + p := by
    simp only [CircuitBreaker.record_failure]
    split_ifs <;> simp [CircuitBreaker.trip]
  have hfail2 : (cb.record_failure p now).2.consecutive_failures
      = cb.consecutive_failures + 1 := by
    simp only [CircuitBreaker.record_failure]
    split_ifs <;> simp [CircuitBreaker.trip]
  have hfail3 : ((cb.record_failure p now).1 = true ↔
      cb.max_consecutive_failures ≤ cb.consecutive_failures + 1
      ∨ cb.max_cumulative_loss_mist ≤ -(cb.cumulative_pnl_mist + p)) := by
    simp only [CircuitBreaker.record_failure]
    split_ifs with h1 h2 <;> simp_all [CircuitBreaker.trip] <;> omega
  have hfail4 : (cb.record_failure p now).2.tripped_at_ms =
      (if cb.max_consecutive_failures ≤ cb.consecutive_failures + 1
          ∨ cb.max_cumulative_loss_mist ≤ -(cb.cumulative_pnl_mist + p)
       then some now else cb.tripped_at_ms) := by
    simp only [CircuitBreaker.record_failure]
    split_ifs with h1 h2 <;> simp_all [CircuitBreaker.trip] <;> omega
  have hita : cb.is_trading_allowed now =
      match cb.tripped_at_ms with
      | none => (true, cb)
      | some t =>
        if cb.cooldown_ms ≤ now - t then (true, cb.reset) else (false, cb) := by
    cases h : cb.tripped_at_ms <;> simp [CircuitBreaker.is_trading_allowed, h]
  exact ⟨⟨hfail1, hfail2, hfail3, hfail4⟩, ⟨rfl, rfl, rfl⟩, hita, rfl, rfl, rfl⟩

/-- C2 witness: the transition law applied at the spec's trip-and-recover
scenario configuration. -/
theorem circuit_breaker_transitions_witness :
    ((CircuitBreaker.new 3 1000000000 5000).record_failure (-100000) 1000).2.consecutive_failures
        = (CircuitBreaker.new 3 1000000000 5000).consecutive_failures + 1
    ∧ ((CircuitBreaker.new 3 1000000000 5000).record_failure (-100000) 1000).1 = false :=
  ⟨((circuit_breaker_transitions (CircuitBreaker.new 3 1000000000 5000)
      (-100000) 1000).1).2.1,
   by
    have h := ((circuit_breaker_transitions (CircuitBreaker.new 3 1000000000 5000)
      (-100000) 1000).1).2.2.1
    revert h
    decide⟩

/-- C4 counterexample: with equal sqrt prices on both legs
(`sp1 = sp2 = 2^64`), `L1 = 2^64`, `L2 = 1001`, zero fees and input `1000`,
the simulator reports a profit of `10^6`, not `0`. -/
theorem simulate_clmm_arb_equal_price_counterexample :
    simulate_clmm_arb (2 ^ 64) (2 ^ 64) (2 ^ 64) 1001 0 0 1000 = 1000000
    ∧ (2 ^ 64 : Nat) = 2 ^ 64 := by
  exact ⟨by decide, rfl⟩

/-- C4 (amended): `simulate_clmm_arb` is total and short-circuits to `0` on
every listed guard — zero liquidity or sqrt price, fee consuming the whole
input, the first leg exhausting its tick, the second leg exceeding
single-tick capacity, any intermediate 128-bit multiplication overflowing,
and a round trip returning no more than the input. -/
theorem simulate_clmm_arb_zero_guards (sp1 l1 sp2 l2 f1 f2 a : Nat)
    (hl2 : l2 < U128MOD) :
    (l1 = 0 ∨ l2 = 0 ∨ sp1 = 0 ∨ sp2 = 0 →
      simulate_clmm_arb sp1 l1 sp2 l2 f1 f2 a = 0)
    ∧ (clmmAfterFee1 f1 a = 0 → simulate_clmm_arb sp1 l1 sp2 l2 f1 f2 a = 0)
    ∧ (clmmNewSqrt1 sp1 l1 f1 a = 0 → simulate_clmm_arb sp1 l1 sp2 l2 f1 f2 a = 0)
    ∧ (l2 ≤ clmmBTimesSqrt sp1 l1 sp2 f1 f2 a →
      simulate_clmm_arb sp1 l1 sp2 l2 f1 f2 a = 0)
    ∧ (U128MOD ≤ l1 * (sp1 - clmmNewSqrt1 sp1 l1 f1 a) →
      simulate_clmm_arb sp1 l1 sp2 l2 f1 f2 a = 0)
    ∧ (U128MOD ≤ clmmAfterFee2 sp1 l1 f1 f2 a * (sp2 / 2 ^ 32) →
      simulate_clmm_arb sp1 l1 sp2 l2 f1 f2 a = 0)
    ∧ (U128MOD ≤ l2 * (sp2 / 2 ^ 32) →
      simulate_clmm_arb sp1 l1 sp2 l2 f1 f2 a = 0)
    ∧ (U128MOD ≤ l2 *
        (clmmNewSqrt2 sp1 l1 sp2 l2 f1 f2 a - sp2) →
      simulate_clmm_arb sp1 l1 sp2 l2 f1 f2 a = 0)
    ∧ (clmmAmountAOut sp1 l1 sp2 l2 f1 f2 a ≤ a →
      simulate_clmm_arb sp1 l1 sp2 l2 f1 f2 a = 0) := by
  refine ⟨?_, ?_, ?_, ?_, ?_, ?_, ?_, ?_, ?_⟩ <;> intro h
  · simp [simulate_clmm_arb, h]
  · simp [simulate_clmm_arb, h]
  · simp [simulate_clmm_arb, h]
  · simp [simulate_clmm_arb, h]
  · have hb : clmmAmountBMid sp1 l1 f1 a = 0 := by
      simp [clmmAmountBMid, checkedMul128, Nat.not_lt_of_le h]
    simp [simulate_clmm_arb, hb]
  · have hb : clmmBTimesSqrt sp1 l1 sp2 f1 f2 a = U128MOD - 1 := by
      unfold clmmBTimesSqrt checkedMul128
      rw [if_neg (by omega)]
      rfl
    have : l2 ≤ clmmBTimesSqrt sp1 l1 sp2 f1 f2 a := by omega
    simp [simulate_clmm_arb, this]
  · have hb : clmmNewSqrt2 sp1 l1 sp2 l2 f1 f2 a = 0 := by
      unfold clmmNewSqrt2 checkedMul128
      rw [if_neg (by omega)]
      rfl
    simp [simulate_clmm_arb, hb]
  · have hb : clmmAmountAOut sp1 l1 sp2 l2 f1 f2 a = 0 := by
      simp [clmmAmountAOut, checkedMul128, Nat.not_lt_of_le h]
    simp [simulate_clmm_arb, hb]
  · simp [simulate_clmm_arb, h]

/-- C4 witness: a zero first-leg liquidity short-circuits to `0`. -/
theorem simulate_clmm_arb_zero_guards_witness :
    ((0 : Nat) = 0 ∨ (1000000 : Nat) = 0 ∨ (2 ^ 64 : Nat) = 0 ∨ (2 ^ 64 : Nat) = 0)
    ∧ simulate_clmm_arb (2 ^ 64) 0 (2 ^ 64) 1000000 30 30 1000 = 0 :=
  ⟨Or.inl rfl,
   (simulate_clmm_arb_zero_guards (2 ^ 64) 0 (2 ^ 64) 1000000 30 30 1000
      (by norm_num [U128MOD])).1 (Or.inl rfl)⟩

/-- Folding `max` from an enlarged base. -/
theorem foldrMax_base (f : Nat → Nat) (l : List Nat) (b x : Nat) :
    List.foldr (fun m acc => max (f m) acc) (max x b) l
      = max x (List.foldr (fun m acc => max (f m) acc) b l) := by
  induction l with
  | nil => rfl
  | cons m t ih => simp [List.foldr, ih, Nat.max_left_comm]

/-- The loop of `ternary_search` returns the maximum of the incoming best and
every probed value. -/
theorem tsLoop_profit (f : Nat → Nat) (prec : Nat) :
    ∀ fuel lo hi bA bP,
      (tsLoop f prec fuel lo hi bA bP).2
        = List.foldr (fun m acc => max (f m) acc) bP
            (tsProbes f prec fuel lo hi) := by
  intro fuel
  induction fuel with
  | zero =>
    intro lo hi bA bP
    simp only [tsLoop, tsFinal, tsProbes, List.foldr]
    split_ifs with hp <;> simp <;> omega
  | succ n ih =>
    intro lo hi bA bP
    by_cases hcond : prec < hi - lo
    · simp only [tsLoop, tsProbes, if_pos hcond]
      by_cases hp : f (lo + (hi - lo) / 3) < f (hi - (hi - lo) / 3) <;>
        [rw [if_pos hp, if_pos hp]; rw [if_neg hp, if_neg hp]] <;>
      · rw [ih]
        rw [show (if (if bP < f (lo + (hi - lo) / 3) then f (lo + (hi - lo) / 3)
                      else bP) < f (hi - (hi - lo) / 3)
                  then f (hi - (hi - lo) / 3)
                  else if bP < f (lo + (hi - lo) / 3) then f (lo + (hi - lo) / 3)
                      else bP)
              = max (f (hi - (hi - lo) / 3)) (max (f (lo + (hi - lo) / 3)) bP)
            by split_ifs <;> omega]
        rw [foldrMax_base, foldrMax_base]
        simp only [List.foldr]
        omega
    · simp only [tsLoop, tsProbes, if_neg hcond, tsFinal, List.foldr]
      split_ifs with hp <;> simp <;> omega

/-- The loop of `ternary_search` either keeps the incoming best pair or
returns a probed point together with its value. -/
theorem tsLoop_attained (f : Nat → Nat) (prec : Nat) :
    ∀ fuel lo hi bA bP,
      tsLoop f prec fuel lo hi bA bP = (bA, bP)
      ∨ f (tsLoop f prec fuel lo hi bA bP).1
          = (tsLoop f prec fuel lo hi bA bP).2 := by
  intro fuel
  induction fuel with
  | zero =>
    intro lo hi bA bP
    simp only [tsLoop, tsFinal]
    split_ifs with hp
    · right; rfl
    · left; rfl
  | succ n ih =>
    intro lo hi bA bP
    by_cases hcond : prec < hi - lo
    · simp only [tsLoop, if_pos hcond]
      by_cases hp : f (lo + (hi - lo) / 3) < f (hi - (hi - lo) / 3) <;>
        [rw [if_pos hp]; rw [if_neg hp]] <;>
      · rcases ih _ _ _ _ with h | h
        · rw [h]
          split_ifs <;> first | (left; rfl) | (right; rfl)
        · right; exact h
    · simp only [tsLoop, if_neg hcond, tsFinal]
      split_ifs with hp
      · right; rfl
      · left; rfl

set_option maxRecDepth 4000 in
/-- C5 counterexample: on `[0, 10]` with precision `20` and a function that
is positive only at the never-probed point `0`, the search returns `(0, 0)`,
so the returned amount does not attain the returned profit (the profit at
amount `0` is actually `5`). -/
theorem ternary_search_attainment_counterexample :
    fSpike (ternary_search 0 10 20 fSpike).1 ≠ (ternary_search 0 10 20 fSpike).2
    ∧ ternary_search 0 10 20 fSpike = (0, 0) ∧ fSpike 0 = 5 := by
  refine ⟨by decide, by decide, by decide⟩

set_option maxRecDepth 8000 in
/-- C5 (amended): `ternary_search` terminates by construction (100 loop
iterations at most, plus the final midpoint probe); the returned profit is
the maximum of the probed values, the returned amount attains the profit
whenever it is positive, and on the concave `f(x) = −(x−50)² + 2500` over
`[0,100]` with precision 1 the result lies in `[48,52]` with profit
≥ 2498. -/
theorem ternary_search_best_probe :
    (∀ lo hi prec f, (ternary_search lo hi prec f).2
        = List.foldr (fun m acc => max (f m) acc) 0 (ternaryProbes lo hi prec f))
    ∧ (∀ lo hi prec f, 0 < (ternary_search lo hi prec f).2 →
        f (ternary_search lo hi prec f).1 = (ternary_search lo hi prec f).2)
    ∧ (48 ≤ (ternary_search 0 100 1 fConcave).1
        ∧ (ternary_search 0 100 1 fConcave).1 ≤ 52
        ∧ 2498 ≤ (ternary_search 0 100 1 fConcave).2) := by
  refine ⟨?_, ?_, by decide, by decide, by decide⟩
  · intro lo hi prec f
    unfold ternary_search ternaryProbes
    split_ifs with hguard
    · simp
    · exact tsLoop_profit f prec 100 lo hi lo 0
  · intro lo hi prec f hpos
    unfold ternary_search at hpos ⊢
    split_ifs at hpos ⊢ with hguard
    · rfl
    · rcases tsLoop_attained f prec 100 lo hi lo 0 with h | h
      · rw [h] at hpos
        simp at hpos
      · exact h

set_option maxRecDepth 8000 in
/-- C5 witness: on the concave test function the positive returned profit is
attained at the returned amount. -/
theorem ternary_search_best_probe_witness :
    0 < (ternary_search 0 100 1 fConcave).2
    ∧ fConcave (ternary_search 0 100 1 fConcave).1
        = (ternary_search 0 100 1 fConcave).2 :=
  ⟨by decide, ternary_search_best_probe.2.1 0 100 1 fConcave (by decide)⟩

/-- Prepending one element preserves an `∃ pre`-suffix split. -/
theorem exists_pre_cons (x : String) (l S : List String)
    (h : ∃ pre, l = pre ++ S) : ∃ pre, x :: l = pre ++ S :=
  let ⟨p, hp⟩ := h
  ⟨x :: p, by rw [hp]; rfl⟩

/-- Prefixing a whole list preserves the split. -/
theorem exists_pre_append (xs l S : List String)
    (h : ∃ pre, l = pre ++ S) : ∃ pre, xs ++ l = pre ++ S :=
  let ⟨p, hp⟩ := h
  ⟨xs ++ p, by rw [hp, List.append_assoc]⟩

/-- `tail_args` is itself the `[amount, min_profit, clock]` suffix. -/
theorem exists_pre_tail (b : PtbBuilder) (a mp : String) :
    ∃ pre, b.tail_args a mp = pre ++ [a, mp, "0x6"] :=
  ⟨[], rfl⟩

/-- C6: for every strategy in the enum, a successfully built argument list
ends with `[amount, min_profit, clock]` — so `min_profit
= max(1, expected_profit·9/10)` (`u64` arithmetic) sits immediately before
the clock argument `"0x6"`. -/
theorem build_args_min_profit_before_clock (b : PtbBuilder)
    (opp : ArbOpportunity) (args type_args : List String)
    (h : b.build_args opp = .ok (args, type_args)) :
    ∃ pre, args = pre ++ [toString opp.amount_in,
      toString (max (opp.expected_profit * 9 % U64MOD / 10) 1), "0x6"] := by
  unfold PtbBuilder.build_args at h
  cases hs : opp.strategy <;> rw [hs] at h <;> dsimp only at h <;>
    split_ifs at h <;>
    (simp only [Except.ok.injEq, Prod.mk.injEq] at h
     rw [← h.1]
     repeat
       first
         | exact exists_pre_tail b _ _
         | apply exists_pre_cons
         | apply exists_pre_append)

/-- C6 witness: the Cetus→Turbos fixture build ends with the amount, the 90%
min-profit guard, and the clock. -/
theorem build_args_min_profit_before_clock_witness :
    wBuilder.build_args wOpp =
      .ok (["0xcap", "0xflag", "0xcgc", "0xwa", "0xwb", "0xtv",
            "1000000000", "28564452", "0x6"], ["TKA", "TKB"])
    ∧ ∃ pre, ["0xcap", "0xflag", "0xcgc", "0xwa", "0xwb", "0xtv",
            "1000000000", "28564452", "0x6"]
        = pre ++ [toString wOpp.amount_in,
            toString (max (wOpp.expected_profit * 9 % U64MOD / 10) 1), "0x6"] :=
  ⟨by rfl,
   build_args_min_profit_before_clock wBuilder wOpp
     ["0xcap", "0xflag", "0xcgc", "0xwa", "0xwb", "0xtv",
      "1000000000", "28564452", "0x6"] ["TKA", "TKB"] (by rfl)⟩

/-- `sameTriple` is symmetric. -/
theorem sameTriple_symm (a b : ArbOpportunity) :
    sameTriple a b = sameTriple b a := by
  simp only [sameTriple]
  exact decide_eq_decide.mpr eq_comm

/-- The kept run of `dedup_by` never keeps two consecutive related
elements. -/
theorem dedupByKeep_chain (x : ArbOpportunity) (l : List ArbOpportunity) :
    List.Chain (fun a b => sameTriple a b = false) x
      (dedupByKeep sameTriple x l) := by
  induction l generalizing x with
  | nil => exact .nil
  | cons y ys ih =>
    unfold dedupByKeep
    by_cases hr : sameTriple y x
    · rw [if_pos hr]
      exact ih x
    · rw [if_neg hr]
      refine List.Chain.cons ?_ (ih y)
      rw [sameTriple_symm]
      simpa using hr

/-- C7 (amended): `scan_tri_hop`'s deduplication (`Vec::dedup_by`) removes
only *consecutive* duplicates — in the deduplicated emission stream no two
adjacent opportunities share the same sorted pool-id triple, for every input
pool slice.  (Equal triples separated by a different triangle both survive,
as the counterexample shows.) -/
theorem scan_tri_hop_dedup_consecutive (s : Scanner) (now_ms : Nat)
    (pools : List PoolState) :
    List.Chain' (fun a b => sameTriple a b = false)
      (dedupBy sameTriple (triEmissions s now_ms pools)) := by
  cases hemi : triEmissions s now_ms pools with
  | nil => simp [dedupBy]
  | cons x xs =>
    simp only [dedupBy]
    exact dedupByKeep_chain x xs

/-- C7 counterexample: on the four fixture pools the returned list still
contains two opportunities per triangle-set — the same sorted triple occurs
more than once in `scan_tri_hop`'s output (and the output has six entries,
not two). -/
theorem scan_tri_hop_duplicate_counterexample :
    hasDupSortedTriple (Scanner.scan_tri_hop triScanner 1000
      [triP1, triP2, triP3, triP4]) = true
    ∧ (Scanner.scan_tri_hop triScanner 1000
        [triP1, triP2, triP3, triP4]).length = 6 := by
  constructor
  · with_unfolding_all rfl
  · with_unfolding_all rfl

/-- C8 counterexample: with balances `["3", "5"]` the parser produces
`reserve_b = ⌊10⁹·5/3⌋ = 1666666666` (truncation), while rounding
`10⁹·5/3` to the nearest integer gives `1666666667`. -/
theorem aftermath_round_counterexample :
    parsedReserveB (aftermathParse aftContentThreeFive aftMetaFix 0)
        = some 1666666666
    ∧ roundHalfUp ((1000000000 : ℚ) * ((5 : ℚ) / 3)) = 1666666667 := by
  constructor
  · with_unfolding_all rfl
  · with_unfolding_all rfl

/-- C8 (amended): the Aftermath parser derives virtual reserves — when
`normalized_balances[0]` parses to `a > 0` and `[1]` parses to `b`, parsing
succeeds with `reserve_a = 10⁹` and `reserve_b = max 1 ⌊10⁹·(b/a)⌋` (floor,
not round), and `fee_bps = ⌊value/10¹⁸·10⁴⌋` whenever `fees_swap_in[0]`
parses; when either balance is missing or `a ≤ 0`, both reserves are `None`
and parsing still succeeds. -/
theorem aftermath_parse_virtual_reserves (content fields : Json)
    (meta : PoolMeta) (now_ms : Nat)
    (hf : content.get? "fields" = some fields) :
    (∀ a b : ℚ, extract_normalized_balance fields 0 = some a →
      extract_normalized_balance fields 1 = some b → 0 < a →
      parsedReserveA (aftermathParse content meta now_ms) = some 1000000000
      ∧ parsedReserveB (aftermathParse content meta now_ms)
          = some (max (f64ToU64 ((1000000000 : ℚ) * (b / a))) 1)
      ∧ parsedFeeBps (aftermathParse content meta now_ms) = extract_fee_bps fields
      ∧ (aftermathParse content meta now_ms).isOk = true)
    ∧ ((extract_normalized_balance fields 0 = none
        ∨ extract_normalized_balance fields 1 = none
        ∨ (∃ a : ℚ, extract_normalized_balance fields 0 = some a ∧ a ≤ 0)) →
      parsedReserveA (aftermathParse content meta now_ms) = none
      ∧ parsedReserveB (aftermathParse content meta now_ms) = none
      ∧ (aftermathParse content meta now_ms).isOk = true)
    ∧ (∀ q : ℚ, ((((fields.get? "fees_swap_in").bind Json.asArr?).bind
          fun arr => arr[0]?).bind Json.asStr?).bind parseF64 = some q →
        extract_fee_bps fields = some (f64ToU64 (q / (10 : ℚ) ^ 18 * 10000))) := by
  refine ⟨?_, ?_, ?_⟩
  · intro a b ha hb h0
    refine ⟨?_, ?_, ?_, ?_⟩ <;>
      simp [aftermathParse, hf, ha, hb, h0, parsedReserveA, parsedReserveB,
        parsedFeeBps, Except.isOk, Except.toBool, max_comm]
  · intro hcase
    rcases h0 : extract_normalized_balance fields 0 with _ | a
    · refine ⟨?_, ?_, ?_⟩ <;>
        simp [aftermathParse, hf, h0, parsedReserveA, parsedReserveB,
          Except.isOk, Except.toBool]
    · rcases h1 : extract_normalized_balance fields 1 with _ | b
      · refine ⟨?_, ?_, ?_⟩ <;>
          simp [aftermathParse, hf, h0, h1, parsedReserveA, parsedReserveB,
            Except.isOk, Except.toBool]
      · have hle : a ≤ 0 := by
          rcases hcase with hc | hc | ⟨a', ha', hle⟩
          · exact absurd h0 (by simp [hc])
          · exact absurd h1 (by simp [hc])
          · rw [h0] at ha'
            obtain rfl := Option.some.inj ha'
            exact hle
        refine ⟨?_, ?_, ?_⟩ <;>
          simp [aftermathParse, hf, h0, h1, not_lt.mpr hle, parsedReserveA,
            parsedReserveB, Except.isOk, Except.toBool]
  · intro q hq
    simp [extract_fee_bps, hq]

/-- C8 witness: the `["3","5"]` fixture exercises the positive-balance
branch of the amended claim. -/
theorem aftermath_parse_virtual_reserves_witness :
    aftContentThreeFive.get? "fields" = some aftFieldsThreeFive
    ∧ parsedReserveA (aftermathParse aftContentThreeFive aftMetaFix 0)
        = some 1000000000
    ∧ parsedReserveB (aftermathParse aftContentThreeFive aftMetaFix 0)
        = some (max (f64ToU64 ((1000000000 : ℚ) * ((5 : ℚ) / (3 : ℚ)))) 1) :=
  ⟨by with_unfolding_all rfl,
   ((aftermath_parse_virtual_reserves aftContentThreeFive aftFieldsThreeFive
      aftMetaFix 0 (by with_unfolding_all rfl)).1 3 5
      (by with_unfolding_all rfl) (by with_unfolding_all rfl) (by decide)).1,
   ((aftermath_parse_virtual_reserves aftContentThreeFive aftFieldsThreeFive
      aftMetaFix 0 (by with_unfolding_all rfl)).1 3 5
      (by with_unfolding_all rfl) (by with_unfolding_all rfl) (by decide)).2.1⟩

/-- C3: for a pair of fresh pools on the same unordered coin pair with both
direction-aligned normalized prices defined, `scan_two_hop` emits an
opportunity exactly when `0.001 < spread ≤ 0.5`, the `(flash, sell)` venue
pair is in the closed dispatch table, and `⌊10⁹·spread·0.5⌋` exceeds
`min_profit_mist`; the emitted record leads with the cheaper pool's object
id and carries `amount_in = 10⁹`, `estimated_gas = 5·10⁶`.  The table is
undefined whenever the flash venue is Aftermath or FlowX AMM and whenever
the sell venue is FlowX AMM. -/
theorem scan_two_hop_pair_emission (s : Scanner) (now_ms : Nat)
    (pa pb : PoolState) (qa qb : ℚ)
    (hfa : pa.staleness_ms now_ms ≤ s.max_staleness_ms)
    (hfb : pb.staleness_ms now_ms ≤ s.max_staleness_ms)
    (hsame : same_pair pa pb = true)
    (hqa : pa.price_a_in_b = some qa)
    (hqb : pb.price_a_in_b = some qb) :
    let norm_a := normalize_price qa pa.coin_type_a pa.coin_type_b
    let norm_b := if pa.coin_type_a = pb.coin_type_a
      then normalize_price qb pb.coin_type_a pb.coin_type_b
      else 1 / normalize_price qb pb.coin_type_a pb.coin_type_b
    let spread := |norm_a - norm_b| / min norm_a norm_b
    let flash_pool := if norm_a < norm_b then pa else pb
    let sell_pool := if norm_a < norm_b then pb else pa
    let est_profit := f64ToU64 (((1000000000 : Nat) : ℚ) * spread * (1 / 2))
    ((s.scan_two_hop now_ms [pa, pb]).isEmpty = false ↔
      (1 / 1000 < spread ∧ spread ≤ MAX_REALISTIC_SPREAD
       ∧ (resolve_strategy flash_pool.dex sell_pool.dex).isSome = true
       ∧ s.min_profit_mist < est_profit))
    ∧ (∀ o ∈ s.scan_two_hop now_ms [pa, pb],
        o.pool_ids = [flash_pool.object_id, sell_pool.object_id]
        ∧ o.amount_in = 1000000000
        ∧ o.estimated_gas = 5000000)
    ∧ (∀ d : Dex, resolve_strategy .Aftermath d = none
        ∧ resolve_strategy .FlowxAmm d = none
        ∧ resolve_strategy d .FlowxAmm = none) := by
  have hscan : s.scan_two_hop now_ms [pa, pb] =
      (match checkPair s now_ms pa pb with
       | some o => [o]
       | none => []) := by
    rcases hc : checkPair s now_ms pa pb with _ | o <;>
      simp [Scanner.scan_two_hop, pairsOf, hc, sortByProfitDesc, insertDesc]
  dsimp only
  rw [hscan]
  unfold checkPair
  rw [if_neg (by omega), if_neg (by simp [hsame]), hqa, hqb]
  dsimp only
  refine ?remain
  set na := normalize_price qa pa.coin_type_a pa.coin_type_b with hna
  set nb := (if pa.coin_type_a = pb.coin_type_a
    then normalize_price qb pb.coin_type_a pb.coin_type_b
    else 1 / normalize_price qb pb.coin_type_a pb.coin_type_b) with hnb
  set sp := |na - nb| / min na nb with hsp
  have htable : ∀ d : Dex, resolve_strategy .Aftermath d = none
      ∧ resolve_strategy .FlowxAmm d = none
      ∧ resolve_strategy d .FlowxAmm = none := by
    intro d
    cases d <;> exact ⟨rfl, rfl, rfl⟩
  by_cases h1 : 1 / 1000 < sp
  · by_cases h2 : MAX_REALISTIC_SPREAD < sp
    · rw [if_pos h1, if_pos h2]
      dsimp only
      refine ⟨iff_of_false (by simp) ?_, ?_, htable⟩
      · rintro ⟨-, hle, -, -⟩
        exact absurd hle (not_le.mpr h2)
      · intro o ho
        simp at ho
    · rcases hrs : resolve_strategy (if na < nb then pa else pb).dex
        (if na < nb then pb else pa).dex with _ | strat
      · rw [if_pos h1, if_neg h2]
        dsimp only
        refine ⟨iff_of_false (by simp) ?_, ?_, htable⟩
        · rintro ⟨-, -, hsome, -⟩
          simp at hsome
        · intro o ho
          simp at ho
      · by_cases h3 : s.min_profit_mist <
          f64ToU64 (((1000000000 : Nat) : ℚ) * sp * (1 / 2))
        · rw [if_pos h1, if_neg h2]
          dsimp only
          rw [if_pos h3]
          dsimp only
          refine ⟨iff_of_true rfl ⟨h1, not_lt.mp h2, rfl, h3⟩, ?_, htable⟩
          intro o ho
          rw [List.mem_singleton] at ho
          subst ho
          exact ⟨rfl, rfl, rfl⟩
        · rw [if_pos h1, if_neg h2]
          dsimp only
          rw [if_neg h3]
          dsimp only
          refine ⟨iff_of_false (by simp) ?_, ?_, htable⟩
          · rintro ⟨-, -, -, hlt⟩
            exact h3 hlt
          · intro o ho
            simp at ho
  · rw [if_neg h1]
    dsimp only
    refine ⟨iff_of_false (by simp) ?_, ?_, htable⟩
    · rintro ⟨hlt, -, -, -⟩
      exact h1 hlt
    · intro o ho
      simp at ho

/-- C3 witness: a fresh Cetus/Turbos pair with a 6.3% spread emits. -/
theorem scan_two_hop_pair_emission_witness :
    (Scanner.scan_two_hop wScanner 1000 [wTwoHopA, wTwoHopB]).isEmpty = false :=
  ((scan_two_hop_pair_emission wScanner 1000 wTwoHopA wTwoHopB 1
      (1089 / 1024) (by decide) (by decide) (by with_unfolding_all rfl)
      (by with_unfolding_all rfl) (by with_unfolding_all rfl)).1).mpr
    ⟨by with_unfolding_all decide, by with_unfolding_all decide,
     by with_unfolding_all decide, by with_unfolding_all decide⟩
